import Mathlib

/-!
Verification of the request/response normalization core of `git-repo-brief`:
the repository-URL parser, the rate-limited outbound fetch gate, the response
envelope model, and the four tool entry points (overview, key-files,
release-notes, activity-snapshot).  Pure logic is embedded shallowly; the
effects of the host environment (WHATWG URL parsing, the fetch call itself)
enter as explicit oracle arguments, so every tool is a total function of the
outcomes it observes.
-/

namespace GitRepoBrief

/-! ## String and header utilities -/

/-- Numeric value of a list of decimal digit characters, mirroring
`parseInt(s, 10)` on a plain digit string (leading zeros allowed). -/
def digitsToNat (ds : List Char) : Nat :=
  ds.foldl (fun a c => a * 10 + (c.toNat - 48)) 0

/-- Decimal digit test, as the JS regex class `\d`. -/
def isDig (c : Char) : Bool := 48 ≤ c.toNat && c.toNat ≤ 57

/-- Substring test over character lists, mirroring `String.prototype.includes`. -/
def containsSub (pat : List Char) : List Char → Bool
  | [] => pat.isEmpty
  | c :: rest => pat.isPrefixOf (c :: rest) || containsSub pat rest

/-- Attempt to match the regex `page=(\d+)` followed by the literal `suffix`
at the very start of `cs`; returns the captured digit run.  Backtracking on
`\d+` is immaterial because `suffix` begins with a non-digit, so the maximal
digit run is the only candidate. -/
def matchPageAt (suffix : List Char) (cs : List Char) : Option (List Char) :=
  if ("page=".toList).isPrefixOf cs then
    if ((cs.drop 5).takeWhile isDig).isEmpty then none
    else if suffix.isPrefixOf ((cs.drop 5).dropWhile isDig) then
      some ((cs.drop 5).takeWhile isDig)
    else none
  else none

/-- Leftmost match of `page=(\d+)` followed by `suffix` anywhere in the list:
the semantics of `s.match(/page=(\d+)<suffix>/)` returning the first capture. -/
def scanPageMarker (suffix : List Char) : List Char → Option (List Char)
  | [] => none
  | c :: rest =>
    match matchPageAt suffix (c :: rest) with
    | some ds => some ds
    | none => scanPageMarker suffix rest

/-- Suffix of the pagination regex used for counts: `>; rel="last"`. -/
def relLastSuffix : List Char := (">; rel=\"last\"").toList

/-- Suffix of the pagination regex used for the next-page cursor: `>; rel="next"`. -/
def relNextSuffix : List Char := (">; rel=\"next\"").toList

/-- Splitting of a character list on a separator character, the semantics of
`String.prototype.split` with a one-character separator. -/
def splitOnCharAux (sep : Char) : List Char → List Char → List (List Char)
  | [], acc => [acc.reverse]
  | c :: rest, acc =>
    if c = sep then acc.reverse :: splitOnCharAux sep rest []
    else splitOnCharAux sep rest (c :: acc)

/-- Top-level split: `splitOnChar sep cs` never returns an empty list. -/
def splitOnChar (sep : Char) (cs : List Char) : List (List Char) :=
  splitOnCharAux sep cs []

/-- Lower-casing a string character by character (ASCII is all the header
names need). -/
def lowerStr (s : String) : String := String.mk (s.toList.map Char.toLower)

/-- Case-insensitive header lookup, mirroring `Headers.prototype.get` (header
names are matched case-insensitively; `none` models a `null` return). -/
def getHeader (hs : List (String × String)) (name : String) : Option String :=
  (hs.find? (fun p => lowerStr p.1 = lowerStr name)).map (fun p => p.2)

/-- JS truthiness filter on an optional header value: `null` and the empty
string are both falsy, so `if (header)` treats them alike. -/
def headerTruthy : Option String → Option String
  | none => none
  | some s => if s.isEmpty then none else some s

/-- Length of a string in UTF-16 code units: the semantics of the JS
`String.prototype.length` used for the `size` field.  Code points below
`0x10000` occupy one unit, the rest occupy a surrogate pair. -/
def utf16Len (s : String) : Nat :=
  s.data.foldl (fun n c => n + (if c.toNat < 65536 then 1 else 2)) 0

/-! ## Repository-URL parser (src/tools/overview.ts, lines 52-71) -/

/-- Outcome of the host's WHATWG `new URL(url)` call: the two components the
parser inspects.  A `none` oracle value models the constructor throwing. -/
structure UrlParts where
  hostname : String
  pathname : String
deriving DecidableEq, Repr

/-- Repository reference extracted from a URL (types.ts `ParsedRepoInfo`). -/
structure ParsedRepoInfo where
  owner : String
  repo : String
deriving DecidableEq, Repr

/-- Removal of one trailing `.git`, the effect of `replace(/\.git$/, '')`. -/
def stripDotGit (cs : List Char) : List Char :=
  if ['.', 'g', 'i', 't'].isSuffixOf cs then cs.take (cs.length - 4) else cs

/-- Non-empty path segments of a pathname: `pathname.split('/').filter(Boolean)`. -/
def pathSegments (pathname : String) : List (List Char) :=
  (splitOnChar '/' pathname.toList).filter (fun s => ¬ s.isEmpty)

/-- Embedding of `parseRepoUrl`: reject unless the hostname is `github.com`
or `www.github.com`; split the pathname on `/`, drop empty segments
(`filter(Boolean)`), require at least two; the second segment loses one
trailing `.git` (`replace(/\.git$/, '')`). -/
def parseRepoUrl (u : Option UrlParts) : Option ParsedRepoInfo :=
  match u with
  | none => none
  | some p =>
    if p.hostname ≠ "github.com" ∧ p.hostname ≠ "www.github.com" then none
    else
      match pathSegments p.pathname with
      | owner :: repo :: _ =>
        some { owner := String.mk owner, repo := String.mk (stripDotGit repo) }
      | _ => none

/-- Specification-side restatement of the parser contract, written from the
claim's words: succeed exactly when the URL parsed and the host is the
canonical GitHub web host (with or without `www`) and the path has at least
two non-empty segments; owner is the first segment, repo the second with a
trailing `.git` stripped, extra segments ignored. -/
def parseRepoUrlSpec (u : Option UrlParts) : Option ParsedRepoInfo :=
  match u with
  | none => none
  | some p =>
    if (p.hostname = "github.com" ∨ p.hostname = "www.github.com") ∧
        2 ≤ (pathSegments p.pathname).length then
      match pathSegments p.pathname with
      | owner :: repo :: _ =>
        some { owner := String.mk owner, repo := String.mk (stripDotGit repo) }
      | _ => none
    else none

/-! ## Response envelope model (src/types.ts) -/

/-- Closed error taxonomy of types.ts (`ErrorCode`). -/
inductive ErrorCode where
  | INVALID_INPUT
  | UPSTREAM_ERROR
  | RATE_LIMITED
  | TIMEOUT
  | PARSE_ERROR
  | INTERNAL_ERROR
deriving DecidableEq, Repr

/-- Values stored in the `details` mapping of an error envelope. -/
inductive DetailValue where
  | s (v : String)
  | n (v : Int)
  | nul
deriving DecidableEq, Repr

/-- Success-side metadata (`meta` of `SuccessResponse`); `retrieved_at` is a
wall-clock read and is not modelled, no claim concerns it. -/
structure SuccessMeta where
  source : Option String
  next_cursor : Option String
  warnings : List String
deriving DecidableEq, Repr

/-- Embedding of `ApiResponse<T>`: the tagged union of the success and error
variants of types.ts. -/
inductive ApiResponse (T : Type) where
  | success (data : T) (meta : SuccessMeta)
  | failure (code : ErrorCode) (message : String) (details : List (String × DetailValue))
deriving DecidableEq, Repr

/-- Embedding of `createSuccessResponse` (defaults: no cursor, no warnings). -/
def createSuccessResponse {T : Type} (data : T) (source : Option String)
    (warnings : List String := []) (next_cursor : Option String := none) :
    ApiResponse T :=
  .success data { source := source, next_cursor := next_cursor, warnings := warnings }

/-- Embedding of `createErrorResponse` (details default to empty). -/
def createErrorResponse {T : Type} (code : ErrorCode) (message : String)
    (details : List (String × DetailValue) := []) : ApiResponse T :=
  .failure code message details

/-- Discriminant of the envelope, the `ok` field. -/
def ApiResponse.ok {T : Type} : ApiResponse T → Bool
  | .success _ _ => true
  | .failure _ _ _ => false

/-! ## Outbound fetch outcomes -/

/-- What a caller of `rateLimitedFetch` observes: either a response (status,
status text, headers, and the body already decoded at the type the call site
parses it to) or a thrown error carrying `name` and `message` (an abort
surfaces as name `AbortError`). -/
inductive FetchOutcome (β : Type) where
  | resp (status : Nat) (statusText : String) (headers : List (String × String)) (body : β)
  | thrown (name : String) (msg : String)
deriving DecidableEq, Repr

/-- The `Response.ok` predicate: status in the inclusive range 200-299. -/
def respOk (status : Nat) : Bool := 200 ≤ status && status ≤ 299

/-! ## JS number parsing and `Date.prototype.toISOString`

The rate-limit classification converts the epoch-seconds `x-ratelimit-reset`
header through `new Date(parseInt(v) * 1000).toISOString()`.  `parseInt` is
modelled on decimal inputs (every value this code path is exercised with);
`toISOString` is modelled for non-negative timestamps up to the JS `Date`
range bound `8.64e15` milliseconds, beyond which JS throws a `RangeError`
(modelled as `none`).  Pre-1970 timestamps never arise from digit-string
headers and are likewise unmodelled (`none`). -/

/-- JS whitespace accepted by `parseInt` before the number. -/
def isJsSpace (c : Char) : Bool :=
  c = ' ' ∨ c = '\t' ∨ c = '\n' ∨ c = '\r'

/-- Embedding of `parseInt(v)` on decimal inputs: skip whitespace, read an
optional sign, then a leading digit run; no digits means `NaN` (`none`). -/
def parseIntJS (s : String) : Option Int :=
  match s.toList.dropWhile isJsSpace with
  | '-' :: rest =>
    if (rest.takeWhile isDig).isEmpty then none
    else some (-(digitsToNat (rest.takeWhile isDig) : Int))
  | '+' :: rest =>
    if (rest.takeWhile isDig).isEmpty then none
    else some ((digitsToNat (rest.takeWhile isDig) : Int))
  | rest =>
    if (rest.takeWhile isDig).isEmpty then none
    else some ((digitsToNat (rest.takeWhile isDig) : Int))

/-- Number of days in a Gregorian year (leap rule of the proleptic calendar
used by JS `Date`). -/
def daysInYear (y : Nat) : Nat :=
  if (y % 4 = 0 ∧ y % 100 ≠ 0) ∨ y % 400 = 0 then 366 else 365

/-- Lengths of the twelve months of year `y`. -/
def monthLengths (y : Nat) : List Nat :=
  [31, if daysInYear y = 366 then 29 else 28, 31, 30, 31, 30, 31, 31, 30, 31, 30, 31]

/-- Walk forward from year 1970 consuming whole years from a day count.
Fuel-driven structural recursion; `fuel = days` always suffices because each
step consumes at least 365 days. -/
def yearAndDoyAux : Nat → Nat → Nat → Nat × Nat
  | 0, y, d => (y, d)
  | fuel + 1, y, d =>
    if daysInYear y ≤ d then yearAndDoyAux fuel (y + 1) (d - daysInYear y) else (y, d)

/-- Calendar year and zero-based day-of-year of a day count since 1970-01-01. -/
def yearAndDoy (days : Nat) : Nat × Nat := yearAndDoyAux days 1970 days

/-- Walk a month-length table consuming a zero-based day-of-year; yields the
1-based month (offset by `m0`) and 1-based day-of-month. -/
def monthAndDayAux (m0 : Nat) : List Nat → Nat → Nat × Nat
  | [], d => (m0, d + 1)
  | len :: rest, d => if len ≤ d then monthAndDayAux (m0 + 1) rest (d - len) else (m0, d + 1)

/-- Month (1-12) and day-of-month (1-31) of day-of-year `doy` in year `y`. -/
def monthAndDay (y doy : Nat) : Nat × Nat := monthAndDayAux 1 (monthLengths y) doy

/-- Character of a single decimal digit. -/
def digitChar (n : Nat) : Char := Char.ofNat (48 + n % 10)

/-- Two-digit zero-padded decimal field (all call sites pass values below 100). -/
def pad2 (n : Nat) : List Char := [digitChar (n / 10), digitChar n]

/-- Three-digit zero-padded decimal field (call sites pass values below 1000). -/
def pad3 (n : Nat) : List Char := [digitChar (n / 100), digitChar (n / 10), digitChar n]

/-- Four-digit zero-padded decimal field (call sites pass values below 10000). -/
def pad4 (n : Nat) : List Char :=
  [digitChar (n / 1000), digitChar (n / 100), digitChar (n / 10), digitChar n]

/-- Six-digit zero-padded decimal field for expanded-year formatting. -/
def pad6 (n : Nat) : List Char :=
  [digitChar (n / 100000), digitChar (n / 10000), digitChar (n / 1000),
   digitChar (n / 100), digitChar (n / 10), digitChar n]

/-- Character list of the ISO-8601 rendering of a non-negative timestamp in
milliseconds: `YYYY-MM-DDTHH:mm:ss.sssZ`, with the `+YYYYYY` expanded year
form beyond year 9999, exactly as `Date.prototype.toISOString`. -/
def isoChars (ms : Nat) : List Char :=
  let days := ms / 86400000
  let rem := ms % 86400000
  let yd := yearAndDoy days
  let md := monthAndDay yd.1 yd.2
  let yearPart := if yd.1 ≤ 9999 then pad4 yd.1 else '+' :: pad6 yd.1
  yearPart ++ '-' :: pad2 md.1 ++ '-' :: pad2 md.2 ++
    'T' :: pad2 (rem / 3600000) ++ ':' :: pad2 (rem % 3600000 / 60000) ++
    ':' :: pad2 (rem % 60000 / 1000) ++ '.' :: pad3 (rem % 1000) ++ ['Z']

/-- Embedding of `new Date(ms).toISOString()` for `ms ≥ 0`; `none` models the
`RangeError` thrown beyond the `Date` range. -/
def isoOfMs (ms : Nat) : Option String :=
  if 8640000000000000 < ms then none else some (String.mk (isoChars ms))

/-- Value of a two-digit field inside the validity checker. -/
def val2 (a b : Char) : Nat := (a.toNat - 48) * 10 + (b.toNat - 48)

/-- Tail of the ISO-8601 format after the year: `-MM-DDTHH:mm:ss.sssZ` with
the calendar and clock fields in range. -/
def isoTailOk : List Char → Bool
  | '-' :: m1 :: m2 :: '-' :: d1 :: d2 :: 'T' :: h1 :: h2 :: ':' :: i1 :: i2 ::
      ':' :: s1 :: s2 :: '.' :: f1 :: f2 :: f3 :: ['Z'] =>
    isDig m1 && isDig m2 && isDig d1 && isDig d2 && isDig h1 && isDig h2 &&
    isDig i1 && isDig i2 && isDig s1 && isDig s2 && isDig f1 && isDig f2 && isDig f3 &&
    decide (1 ≤ val2 m1 m2) && decide (val2 m1 m2 ≤ 12) &&
    decide (1 ≤ val2 d1 d2) && decide (val2 d1 d2 ≤ 31) &&
    decide (val2 h1 h2 ≤ 23) && decide (val2 i1 i2 ≤ 59) && decide (val2 s1 s2 ≤ 59)
  | _ => false

/-- Validity of an ISO-8601 UTC timestamp string: a four-digit year or a
sign-prefixed six-digit expanded year, then `-MM-DDTHH:mm:ss.sssZ` with all
fields in range. -/
def isValidIso8601 (s : String) : Bool :=
  match s.toList with
  | c :: rest =>
    if c = '+' ∨ c = '-' then
      match rest with
      | y1 :: y2 :: y3 :: y4 :: y5 :: y6 :: tail =>
        isDig y1 && isDig y2 && isDig y3 && isDig y4 && isDig y5 && isDig y6 &&
          isoTailOk tail
      | _ => false
    else
      match c :: rest with
      | y1 :: y2 :: y3 :: y4 :: tail =>
        isDig y1 && isDig y2 && isDig y3 && isDig y4 && isoTailOk tail
      | _ => false
  | [] => false

/-! ## Rate-limited fetch dispatch timing (src/tools/overview.ts, lines 12-50)

The throttle logic reads the shared `lastRequestTime`, sleeps out the
remainder of the configured delay when the elapsed time is short, then writes
the shared timestamp and dispatches.  `rlDispatch` is the dispatch time of a
single call as a function of the timestamp it read and the time it started;
`runRL` places that logic inside a cooperative event loop (the JS microtask
and timer queue) so that several calls can be in flight at once: a `start`
event runs the synchronous prefix of `rateLimitedFetch` (read, compare,
either dispatch at once or register a timer), a `dispatch` event runs the
continuation after `setTimeout` (write the shared timestamp, dispatch).
Timers with equal wake times fire in registration order. -/

/-- Dispatch time of one rate-limited call that read shared timestamp `last`
and started at time `t` with configured delay `D` (lines 16-25). -/
def rlDispatch (D last t : Nat) : Nat :=
  if t - last < D then t + (D - (t - last)) else t

/-- Pending event of the simulated event loop. -/
structure RLEvent where
  time : Nat
  seq : Nat
  isDispatch : Bool
deriving DecidableEq, Repr

/-- Timer-queue insertion: keep the queue sorted by wake time, placing an
event after all events of the same wake time that were registered earlier. -/
def insertEv (e : RLEvent) : List RLEvent → List RLEvent
  | [] => [e]
  | x :: xs =>
    if x.time < e.time ∨ (x.time = e.time ∧ x.seq < e.seq) then x :: insertEv e xs
    else e :: x :: xs

/-- Run the event loop: returns the dispatch timestamps in dispatch order.
`fuel` bounds the step count (each call contributes at most two events). -/
def runRL (D : Nat) : Nat → Nat → Nat → List RLEvent → List Nat
  | 0, _, _, _ => []
  | _ + 1, _, _, [] => []
  | fuel + 1, last, seq, e :: rest =>
    if e.isDispatch then
      e.time :: runRL D fuel e.time seq rest
    else
      let w := rlDispatch D last e.time
      if e.time - last < D then
        runRL D fuel last (seq + 1)
          (insertEv { time := w, seq := seq, isDispatch := true } rest)
      else
        e.time :: runRL D fuel e.time seq rest

/-- Start events for calls scheduled concurrently: call `i` starts at time
`ts[i]`, registration order follows list order. -/
def startEvents (ts : List Nat) : List RLEvent :=
  (ts.enum).map (fun p => { time := p.2, seq := p.1, isDispatch := false })

/-- Dispatch timestamps of calls issued strictly one after another: each call
runs `rlDispatch` against the timestamp the previous call wrote. -/
def seqDispatches (D : Nat) : Nat → List Nat → List Nat
  | _, [] => []
  | last, t :: ts => rlDispatch D last t :: seqDispatches D (rlDispatch D last t) ts

/-- Minimum-spacing check on a dispatch-timestamp sequence: every consecutive
pair is separated by at least `D`. -/
def gapsOk (D : Nat) : List Nat → Bool
  | a :: b :: rest => (a + D ≤ b) && gapsOk D (b :: rest)
  | _ => true

/-! ## Upstream response shapes (src/types.ts) -/

/-- Owner sub-object of the repository resource. -/
structure RepoOwner where
  login : String
  avatar_url : String
  type : String
deriving DecidableEq, Repr

/-- License sub-object of the repository resource. -/
structure LicenseInfo where
  spdx_id : String
  name : String
deriving DecidableEq, Repr

/-- Repository resource (`GitHubRepoResponse`).  `topics` is optional here
because the overview tool defends with `data.topics ?? []`. -/
structure GitHubRepoResponse where
  name : String
  full_name : String
  description : Option String
  stargazers_count : Nat
  forks_count : Nat
  language : Option String
  topics : Option (List String)
  license : Option LicenseInfo
  created_at : String
  updated_at : String
  default_branch : String
  homepage : Option String
  open_issues_count : Nat
  watchers_count : Nat
  has_wiki : Bool
  has_discussions : Bool
  owner : RepoOwner
deriving DecidableEq, Repr

/-- One release of the releases listing (`GitHubReleaseResponse`). -/
structure GitHubReleaseResponse where
  tag_name : String
  name : Option String
  body : Option String
  published_at : Option String
  prerelease : Bool
  draft : Bool
  html_url : String
deriving DecidableEq, Repr

/-- Commit author sub-object. -/
structure CommitAuthor where
  name : String
  date : String
deriving DecidableEq, Repr

/-- Commit sub-object. -/
structure CommitInfo where
  message : String
  author : CommitAuthor
deriving DecidableEq, Repr

/-- One commit of the commits listing (`GitHubCommitResponse`). -/
structure GitHubCommitResponse where
  sha : String
  commit : CommitInfo
deriving DecidableEq, Repr

/-- One element of the open-pulls listing (`GitHubPullResponse`). -/
structure GitHubPullResponse where
  number : Nat
  state : String
deriving DecidableEq, Repr

/-- One element of the contributors listing (`GitHubContributorResponse`). -/
structure GitHubContributorResponse where
  login : String
  contributions : Nat
deriving DecidableEq, Repr

/-! ## Overview tool (src/tools/overview.ts, lines 73-158) -/

/-- Stable output record of the overview tool (`RepoOverviewData`). -/
structure RepoOverviewData where
  name : String
  full_name : String
  description : Option String
  stars : Nat
  forks : Nat
  language : Option String
  topics : List String
  license : Option String
  created_at : String
  updated_at : String
  default_branch : String
  homepage : Option String
  owner : RepoOwner
deriving DecidableEq, Repr

/-- Conversion applied to the `x-ratelimit-reset` header value:
`new Date(parseInt(v) * 1000).toISOString()`; `none` models the thrown
`RangeError` (`NaN` or out-of-range timestamp). -/
def resetIso (v : String) : Option String :=
  match parseIntJS v with
  | none => none
  | some i => if i < 0 then none else isoOfMs (i.toNat * 1000)

/-- Classification of a 403 response shared verbatim by the overview and
release-notes tools (overview.ts lines 97-110, releases.ts lines 48-61),
including the outer-catch conversion of a conversion throw. -/
def classify403 {T : Type} (hs : List (String × String)) : ApiResponse T :=
  if getHeader hs "x-ratelimit-remaining" = some "0" then
    match headerTruthy (getHeader hs "x-ratelimit-reset") with
    | none =>
      createErrorResponse .RATE_LIMITED "GitHub API rate limit exceeded" [("reset_at", .nul)]
    | some v =>
      match resetIso v with
      | some iso =>
        createErrorResponse .RATE_LIMITED "GitHub API rate limit exceeded" [("reset_at", .s iso)]
      | none =>
        createErrorResponse .INTERNAL_ERROR "Invalid time value" [("error_name", .s "RangeError")]
  else
    createErrorResponse .UPSTREAM_ERROR "Access forbidden" [("status", .n 403)]

/-- Embedding of `repoOverview`.  Oracle arguments: `u` is the WHATWG parse
outcome of `rawUrl`, `fetched` the outcome of the single upstream fetch,
`timeoutMs` the configured timeout recorded in a `TIMEOUT` envelope.  The
second component lists the outbound request URLs the call issues. -/
def repoOverview (rawUrl : String) (u : Option UrlParts) (timeoutMs : Nat)
    (fetched : FetchOutcome GitHubRepoResponse) :
    ApiResponse RepoOverviewData × List String :=
  match parseRepoUrl u with
  | none =>
    (createErrorResponse .INVALID_INPUT
      "Invalid GitHub repository URL. Expected format: https://github.com/owner/repo"
      [("provided_url", .s rawUrl)], [])
  | some info =>
    let apiUrl := "https://api.github.com/repos/" ++ info.owner ++ "/" ++ info.repo
    let result : ApiResponse RepoOverviewData :=
      match fetched with
      | .thrown nm msg =>
        if nm = "AbortError" then
          createErrorResponse .TIMEOUT "Request timed out" [("timeout_ms", .n timeoutMs)]
        else
          createErrorResponse .INTERNAL_ERROR msg [("error_name", .s nm)]
      | .resp st stx hs body =>
        if st = 404 then
          createErrorResponse .UPSTREAM_ERROR
            ("Repository not found: " ++ info.owner ++ "/" ++ info.repo) [("status", .n 404)]
        else if st = 403 then
          classify403 hs
        else if ¬ respOk st then
          createErrorResponse .UPSTREAM_ERROR
            ("GitHub API error: " ++ toString st ++ " " ++ stx) [("status", .n st)]
        else
          createSuccessResponse
            { name := body.name
              full_name := body.full_name
              description := body.description
              stars := body.stargazers_count
              forks := body.forks_count
              language := body.language
              topics := body.topics.getD []
              license := body.license.map (fun l => l.spdx_id)
              created_at := body.created_at
              updated_at := body.updated_at
              default_branch := body.default_branch
              homepage := body.homepage
              owner := body.owner }
            (some apiUrl)
    (result, [apiUrl])

/-! ## Release-notes tool (src/tools/releases.ts) -/

/-- Stable per-release record (`ReleaseData`). -/
structure ReleaseData where
  tag_name : String
  name : Option String
  body : Option String
  published_at : Option String
  prerelease : Bool
  draft : Bool
  html_url : String
deriving DecidableEq, Repr

/-- Payload of the release-notes success envelope (`ReleaseNotesData`). -/
structure ReleaseNotesData where
  releases : List ReleaseData
  total_count : Nat
deriving DecidableEq, Repr

/-- Next-page cursor inference of releases.ts lines 84-92: require a truthy
`link` header containing `rel="next"`, then take the digits captured by the
leftmost match of `page=(\d+)>; rel="next"`; every other case is `null`. -/
def releasesNextCursor (hs : List (String × String)) : Option String :=
  match headerTruthy (getHeader hs "link") with
  | none => none
  | some link =>
    if containsSub ("rel=\"next\"").toList link.toList then
      match scanPageMarker relNextSuffix link.toList with
      | some ds => some (String.mk ds)
      | none => none
    else none

/-- Embedding of `releaseNotes`; `limit` is the caller-supplied page size
(JS number, modelled as an integer). -/
def releaseNotes (rawUrl : String) (u : Option UrlParts) (limit : Int) (timeoutMs : Nat)
    (fetched : FetchOutcome (List GitHubReleaseResponse)) :
    ApiResponse ReleaseNotesData × List String :=
  match parseRepoUrl u with
  | none =>
    (createErrorResponse .INVALID_INPUT
      "Invalid GitHub repository URL. Expected format: https://github.com/owner/repo"
      [("provided_url", .s rawUrl)], [])
  | some info =>
    if limit < 1 ∨ 100 < limit then
      (createErrorResponse .INVALID_INPUT "Limit must be between 1 and 100"
        [("provided_limit", .n limit)], [])
    else
      let apiUrl := "https://api.github.com/repos/" ++ info.owner ++ "/" ++ info.repo ++
        "/releases?per_page=" ++ toString limit
      let result : ApiResponse ReleaseNotesData :=
        match fetched with
        | .thrown nm msg =>
          if nm = "AbortError" then
            createErrorResponse .TIMEOUT "Request timed out" [("timeout_ms", .n timeoutMs)]
          else
            createErrorResponse .INTERNAL_ERROR msg [("error_name", .s nm)]
        | .resp st stx hs body =>
          if st = 404 then
            createErrorResponse .UPSTREAM_ERROR
              ("Repository not found: " ++ info.owner ++ "/" ++ info.repo) [("status", .n 404)]
          else if st = 403 then
            classify403 hs
          else if ¬ respOk st then
            createErrorResponse .UPSTREAM_ERROR
              ("GitHub API error: " ++ toString st ++ " " ++ stx) [("status", .n st)]
          else
            let releases : List ReleaseData := body.map (fun r =>
              { tag_name := r.tag_name
                name := r.name
                body := r.body
                published_at := r.published_at
                prerelease := r.prerelease
                draft := r.draft
                html_url := r.html_url })
            createSuccessResponse
              { releases := releases, total_count := releases.length }
              (some apiUrl)
              (if releases.length = 0 then ["No releases found for this repository"] else [])
              (releasesNextCursor hs)
      (result, [apiUrl])

/-! ## Key-files tool (src/tools/files.ts) -/

/-- Per-file outcome record (`FileContent`); the absent `error` key is `none`. -/
structure FileContent where
  path : String
  content : Option String
  size : Option Nat
  encoding : String
  error : Option String
deriving DecidableEq, Repr

/-- Payload of the key-files success envelope (`ExtractKeyFilesData`). -/
structure ExtractKeyFilesData where
  files : List FileContent
  default_branch : String
deriving DecidableEq, Repr

/-- Fixed default path list (files.ts line 11). -/
def DEFAULT_PATHS : List String := ["README.md", "LICENSE", "package.json", "pyproject.toml"]

/-- Path-list selection of files.ts line 93: a missing or empty list falls
back to the defaults; a non-empty list is used as given. -/
def selectPaths (paths : Option (List String)) : List String :=
  match paths with
  | some ps => if 0 < ps.length then ps else DEFAULT_PATHS
  | none => DEFAULT_PATHS

/-- Raw-content URL of one requested file. -/
def rawFileUrl (owner repo branch path : String) : String :=
  "https://raw.githubusercontent.com/" ++ owner ++ "/" ++ repo ++ "/" ++ branch ++ "/" ++ path

/-- Embedding of `fetchRawFile` (files.ts lines 13-60): a 404 yields the
`File not found` record, any other non-2xx yields `HTTP <status>: <text>`,
a throw yields the error message, success carries the body text with `size`
the JS string length (UTF-16 code units). -/
def fetchRawFile (path : String) (fetched : FetchOutcome String) : FileContent :=
  match fetched with
  | .thrown _ msg =>
    { path := path, content := none, size := none, encoding := "utf-8", error := some msg }
  | .resp st stx _ body =>
    if st = 404 then
      { path := path, content := none, size := none, encoding := "utf-8",
        error := some "File not found" }
    else if ¬ respOk st then
      { path := path, content := none, size := none, encoding := "utf-8",
        error := some ("HTTP " ++ toString st ++ ": " ++ stx) }
    else
      { path := path, content := some body, size := some (utf16Len body),
        encoding := "utf-8", error := none }

/-- Body shape read by the branch lookup: only `default_branch`, optional. -/
structure RepoBranchBody where
  default_branch : Option String
deriving DecidableEq, Repr

/-- Embedding of `getDefaultBranch` (files.ts lines 62-77): any non-2xx or
throw yields `none`; a 2xx body missing the field falls back to `main`. -/
def getDefaultBranch (fetched : FetchOutcome RepoBranchBody) : Option String :=
  match fetched with
  | .thrown _ _ => none
  | .resp st _ _ body => if ¬ respOk st then none else some (body.default_branch.getD "main")

/-- JS truthiness gate on the resolved branch (`if (!defaultBranch)` in
files.ts line 98): both `null` and the empty string count as a failed
resolution, so a 2xx body carrying `default_branch: ""` fails the call. -/
def branchTruthy : Option String → Option String
  | none => none
  | some s => if s.isEmpty then none else some s

/-- JS truthiness of the `error` field used by the warning filters. -/
def errTruthy (f : FileContent) : Bool :=
  match f.error with
  | some e => ¬ e.isEmpty
  | none => false

/-- Warning list assembled by `extractKeyFiles` (files.ts lines 114-127): at
most one warning naming every not-found file, then at most one naming every
other failed file with its error text. -/
def keyFilesWarnings (files : List FileContent) : List String :=
  let filesNotFound := files.filter (fun f => f.error = some "File not found")
  let filesWithErrors :=
    files.filter (fun f => errTruthy f && f.error ≠ some "File not found")
  (if 0 < filesNotFound.length then
    ["Files not found: " ++ String.intercalate ", " (filesNotFound.map (fun f => f.path))]
  else []) ++
  (if 0 < filesWithErrors.length then
    ["Errors fetching files: " ++ String.intercalate "; "
      (filesWithErrors.map (fun f => f.path ++ ": " ++ (f.error.getD "")))]
  else [])

/-- Embedding of `extractKeyFiles`.  Oracles: `branchFetch` is the outcome of
the branch-resolution fetch, `fileFetch` the outcome of the raw fetch per
path.  The catch around the per-file joins is unreachable because
`fetchRawFile` converts every failure to a value, so the success branch is
total here. -/
def extractKeyFiles (rawUrl : String) (u : Option UrlParts) (paths : Option (List String))
    (branchFetch : FetchOutcome RepoBranchBody) (fileFetch : String → FetchOutcome String) :
    ApiResponse ExtractKeyFilesData × List String :=
  match parseRepoUrl u with
  | none =>
    (createErrorResponse .INVALID_INPUT
      "Invalid GitHub repository URL. Expected format: https://github.com/owner/repo"
      [("provided_url", .s rawUrl)], [])
  | some info =>
    let filePaths := selectPaths paths
    let apiUrl := "https://api.github.com/repos/" ++ info.owner ++ "/" ++ info.repo
    match branchTruthy (getDefaultBranch branchFetch) with
    | none =>
      (createErrorResponse .UPSTREAM_ERROR
        ("Could not determine default branch for " ++ info.owner ++ "/" ++ info.repo ++
          ". Repository may not exist or be private.")
        [("owner", .s info.owner), ("repo", .s info.repo)], [apiUrl])
    | some branch =>
      let files := filePaths.map (fun p => fetchRawFile p (fileFetch p))
      (createSuccessResponse
        { files := files, default_branch := branch }
        (some ("https://github.com/" ++ info.owner ++ "/" ++ info.repo))
        (keyFilesWarnings files),
       apiUrl :: filePaths.map (fun p => rawFileUrl info.owner info.repo branch p))

/-! ## Activity-snapshot tool (the activity source file) -/

/-- Stable output record of the activity tool (`ActivitySnapshotData`). -/
structure ActivitySnapshotData where
  last_commit_date : Option String
  last_commit_message : Option String
  open_issues_count : Nat
  open_prs_count : Nat
  contributors_count : Nat
  watchers_count : Nat
  has_wiki : Bool
  has_discussions : Bool
deriving DecidableEq, Repr

/-- Embedding of `fetchRepoInfo` (activity file, lines 14-23). -/
def fetchRepoInfo (fetched : FetchOutcome GitHubRepoResponse) : Option GitHubRepoResponse :=
  match fetched with
  | .thrown _ _ => none
  | .resp st _ _ body => if ¬ respOk st then none else some body

/-- Embedding of `fetchLatestCommit` (lines 25-38): first element of the
page-size-1 commits listing, `none` when the listing is empty or the fetch
failed. -/
def fetchLatestCommit (fetched : FetchOutcome (List GitHubCommitResponse)) :
    Option GitHubCommitResponse :=
  match fetched with
  | .thrown _ _ => none
  | .resp st _ _ body => if ¬ respOk st then none else body.head?

/-- Embedding of `fetchOpenPRsCount` (lines 40-63): a truthy `link` header
whose text matches `page=(\d+)>; rel="last"` yields the captured number;
otherwise the length of the returned array; failures yield `none`. -/
def fetchOpenPRsCount (fetched : FetchOutcome (List GitHubPullResponse)) : Option Nat :=
  match fetched with
  | .thrown _ _ => none
  | .resp st _ hs body =>
    if ¬ respOk st then none
    else
      match headerTruthy (getHeader hs "link") with
      | some link =>
        match scanPageMarker relLastSuffix link.toList with
        | some ds => some (digitsToNat ds)
        | none => some body.length
      | none => some body.length

/-- Embedding of `fetchContributorsCount` (lines 65-86), the same header
inference over the contributors listing. -/
def fetchContributorsCount (fetched : FetchOutcome (List GitHubContributorResponse)) :
    Option Nat :=
  match fetched with
  | .thrown _ _ => none
  | .resp st _ hs body =>
    if ¬ respOk st then none
    else
      match headerTruthy (getHeader hs "link") with
      | some link =>
        match scanPageMarker relLastSuffix link.toList with
        | some ds => some (digitsToNat ds)
        | none => some body.length
      | none => some body.length

/-- Embedding of `activitySnapshot` (lines 88-160).  The four oracle
arguments are the outcomes of the four parallel fetches; the helpers convert
every failure to `none`/`null`, so the surrounding catch is unreachable. -/
def activitySnapshot (rawUrl : String) (u : Option UrlParts)
    (repoF : FetchOutcome GitHubRepoResponse)
    (commitF : FetchOutcome (List GitHubCommitResponse))
    (prsF : FetchOutcome (List GitHubPullResponse))
    (contribF : FetchOutcome (List GitHubContributorResponse)) :
    ApiResponse ActivitySnapshotData × List String :=
  match parseRepoUrl u with
  | none =>
    (createErrorResponse .INVALID_INPUT
      "Invalid GitHub repository URL. Expected format: https://github.com/owner/repo"
      [("provided_url", .s rawUrl)], [])
  | some info =>
    let base := "https://api.github.com/repos/" ++ info.owner ++ "/" ++ info.repo
    let requests := [base, base ++ "/commits?per_page=1",
      base ++ "/pulls?state=open&per_page=1", base ++ "/contributors?per_page=1&anon=true"]
    match fetchRepoInfo repoF with
    | none =>
      (createErrorResponse .UPSTREAM_ERROR
        ("Could not fetch repository data for " ++ info.owner ++ "/" ++ info.repo ++
          ". Repository may not exist or be private.")
        [("owner", .s info.owner), ("repo", .s info.repo)], requests)
    | some repoData =>
      let latestCommit := fetchLatestCommit commitF
      let openPRsCount := fetchOpenPRsCount prsF
      let contributorsCount := fetchContributorsCount contribF
      let warnings :=
        (if openPRsCount = none then ["Could not fetch open PRs count"] else []) ++
        (if contributorsCount = none then ["Could not fetch contributors count"] else []) ++
        (if latestCommit = none then ["Could not fetch latest commit information"] else [])
      (createSuccessResponse
        { last_commit_date := latestCommit.map (fun c => c.commit.author.date)
          last_commit_message := latestCommit.map (fun c => c.commit.message)
          open_issues_count := repoData.open_issues_count
          open_prs_count := openPRsCount.getD 0
          contributors_count := contributorsCount.getD 0
          watchers_count := repoData.watchers_count
          has_wiki := repoData.has_wiki
          has_discussions := repoData.has_discussions }
        (some base) warnings, requests)

/-! ## Specification-side reading of the Link pagination header

Written from the claims' words, not from the code: the page number that the
`rel="last"` (respectively `rel="next"`) entry of an RFC-8288-style `Link`
header marks, read from the `page` query parameter of that entry's URL.
Used to confront the code's regex-based extraction with the header's actual
meaning. -/

/-- Removal of leading and trailing spaces from a header-part character list. -/
def trimSpaces (cs : List Char) : List Char :=
  ((cs.dropWhile (fun c => c = ' ')).reverse.dropWhile (fun c => c = ' ')).reverse

/-- Page parameter of one `Link` entry when the entry carries the wanted
relation: the entry is `<url>` followed by `;`-separated parameters, and the
page number is the value of the URL's `page` query parameter. -/
def linkEntryPage (relWanted : List Char) (entry : List Char) : Option (List Char) :=
  match splitOnChar ';' entry with
  | [] => none
  | urlPart :: params =>
    if params.any (fun p => trimSpaces p = ("rel=\"").toList ++ relWanted ++ ['"']) then
      let url0 := trimSpaces urlPart
      let url1 := match url0 with
        | '<' :: rest => rest
        | l => l
      let url2 := match url1.reverse with
        | '>' :: rest => rest.reverse
        | _ => url1
      match splitOnChar '?' url2 with
      | _ :: q :: _ =>
        (splitOnChar '&' q).findSome? (fun kv =>
          match splitOnChar '=' kv with
          | [k, v] =>
            if k = ("page").toList ∧ v ≠ [] ∧ v.all (fun c => isDig c) then some v else none
          | _ => none)
      | _ => none
    else none

/-- Page number marked by the `relWanted` entry of a full `Link` header
(entries separated by commas). -/
def linkRelPage (relWanted : String) (header : String) : Option String :=
  ((splitOnChar ',' header.toList).findSome? (linkEntryPage relWanted.toList)).map String.mk

/-! ## Envelope accessors used by the theorems -/

/-- Warning list of an envelope (empty on the error variant). -/
def ApiResponse.warningsOf {T : Type} : ApiResponse T → List String
  | .success _ m => m.warnings
  | .failure _ _ _ => []

/-- Data of a success envelope. -/
def ApiResponse.dataOf {T : Type} : ApiResponse T → Option T
  | .success d _ => some d
  | .failure _ _ _ => none

/-- Pagination cursor of a success envelope. -/
def ApiResponse.cursorOf {T : Type} : ApiResponse T → Option String
  | .success _ m => m.next_cursor
  | .failure _ _ _ => none

/-- Error code of an error envelope. -/
def ApiResponse.codeOf {T : Type} : ApiResponse T → Option ErrorCode
  | .success _ _ => none
  | .failure c _ _ => some c

/-! ## C7: the repository-URL parser contract -/

/-- C7: for every URL-parse outcome, `parseRepoUrl` returns an owner/repo
pair — owner the first non-empty path segment, repo the second with a
trailing `.git` stripped, extra segments ignored — exactly when the string
parsed as a URL whose hostname is `github.com` or `www.github.com` and whose
path has at least two non-empty segments (the restated contract
`parseRepoUrlSpec`); in particular `/a/b.git` and `/a/b` on the GitHub host
both give owner `a`, repo `b`, while the single-segment `/a` is rejected. -/
theorem parseRepoUrl_contract :
    (∀ u : Option UrlParts, parseRepoUrl u = parseRepoUrlSpec u) ∧
    parseRepoUrl (some { hostname := "github.com", pathname := "/a/b.git" }) =
      some { owner := "a", repo := "b" } ∧
    parseRepoUrl (some { hostname := "github.com", pathname := "/a/b" }) =
      some { owner := "a", repo := "b" } ∧
    parseRepoUrl (some { hostname := "github.com", pathname := "/a" }) = none := by
  refine ⟨?_, by decide, by decide, by decide⟩
  intro u
  cases u with
  | none => rfl
  | some p =>
    simp only [parseRepoUrl, parseRepoUrlSpec]
    by_cases hh : p.hostname = "github.com" ∨ p.hostname = "www.github.com"
    · have hneg : ¬ (p.hostname ≠ "github.com" ∧ p.hostname ≠ "www.github.com") := by
        tauto
      rw [if_neg hneg]
      rcases hseg : pathSegments p.pathname with _ | ⟨o, _ | ⟨r, tl⟩⟩
      · simp
      · simp
      · have hlen : 2 ≤ (o :: r :: tl).length := by simp
        rw [if_pos ⟨hh, hlen⟩]
    · have hpos : p.hostname ≠ "github.com" ∧ p.hostname ≠ "www.github.com" := by
        tauto
      rw [if_pos hpos]
      have : ¬ ((p.hostname = "github.com" ∨ p.hostname = "www.github.com") ∧
          2 ≤ (pathSegments p.pathname).length) := by
        tauto
      rw [if_neg this]

/-! ## C10: empty path list falls back to the defaults -/

/-- C10: calling the key-files tool with an explicitly empty `paths` list
behaves identically to omitting it — the fixed four-entry default list is
fetched — and a non-empty list is used exactly as given. -/
theorem selectPaths_empty_is_default :
    (∀ (rawUrl : String) (u : Option UrlParts) (branchFetch : FetchOutcome RepoBranchBody)
        (fileFetch : String → FetchOutcome String),
      extractKeyFiles rawUrl u (some []) branchFetch fileFetch =
        extractKeyFiles rawUrl u none branchFetch fileFetch) ∧
    selectPaths (some []) = DEFAULT_PATHS ∧
    selectPaths none = DEFAULT_PATHS ∧
    DEFAULT_PATHS = ["README.md", "LICENSE", "package.json", "pyproject.toml"] ∧
    ∀ ps : List String, ps ≠ [] → selectPaths (some ps) = ps := by
  refine ⟨fun _ _ _ _ => rfl, rfl, rfl, rfl, ?_⟩
  intro ps hps
  cases ps with
  | nil => exact absurd rfl hps
  | cons a tl => simp [selectPaths]

/-- Witness for C10 at a concrete non-empty path list. -/
theorem selectPaths_empty_is_default_witness :
    selectPaths (some ["docs/README.rst"]) = ["docs/README.rst"] :=
  selectPaths_empty_is_default.2.2.2.2 ["docs/README.rst"] (by decide)

/-! ## C9: rejected URLs produce INVALID_INPUT and no outbound request -/

/-- C9: whenever the URL parser rejects the input, each of the four tool
entry points returns the `INVALID_INPUT` error envelope naming the provided
URL, and its outbound-request list is empty. -/
theorem rejected_url_no_outbound (rawUrl : String) (u : Option UrlParts)
    (hu : parseRepoUrl u = none) (timeoutMs : Nat) (limit : Int)
    (fo : FetchOutcome GitHubRepoResponse)
    (fr : FetchOutcome (List GitHubReleaseResponse))
    (paths : Option (List String)) (bf : FetchOutcome RepoBranchBody)
    (ff : String → FetchOutcome String)
    (cf : FetchOutcome (List GitHubCommitResponse))
    (pf : FetchOutcome (List GitHubPullResponse))
    (kf : FetchOutcome (List GitHubContributorResponse)) :
    repoOverview rawUrl u timeoutMs fo =
      (createErrorResponse .INVALID_INPUT
        "Invalid GitHub repository URL. Expected format: https://github.com/owner/repo"
        [("provided_url", .s rawUrl)], []) ∧
    extractKeyFiles rawUrl u paths bf ff =
      (createErrorResponse .INVALID_INPUT
        "Invalid GitHub repository URL. Expected format: https://github.com/owner/repo"
        [("provided_url", .s rawUrl)], []) ∧
    releaseNotes rawUrl u limit timeoutMs fr =
      (createErrorResponse .INVALID_INPUT
        "Invalid GitHub repository URL. Expected format: https://github.com/owner/repo"
        [("provided_url", .s rawUrl)], []) ∧
    activitySnapshot rawUrl u fo cf pf kf =
      (createErrorResponse .INVALID_INPUT
        "Invalid GitHub repository URL. Expected format: https://github.com/owner/repo"
        [("provided_url", .s rawUrl)], []) := by
  refine ⟨?_, ?_, ?_, ?_⟩ <;>
    simp only [repoOverview, extractKeyFiles, releaseNotes, activitySnapshot, hu]

/-- Witness for C9 at a rejected host (`gitlab.com`). -/
theorem rejected_url_no_outbound_witness :
    (repoOverview "https://gitlab.com/a/b"
      (some { hostname := "gitlab.com", pathname := "/a/b" }) 30000
      (.thrown "TypeError" "fetch failed")).2 = [] ∧
    (activitySnapshot "https://gitlab.com/a/b"
      (some { hostname := "gitlab.com", pathname := "/a/b" })
      (.thrown "TypeError" "fetch failed") (.thrown "TypeError" "fetch failed")
      (.thrown "TypeError" "fetch failed") (.thrown "TypeError" "fetch failed")).2 = [] := by
  have h := rejected_url_no_outbound "https://gitlab.com/a/b"
    (some { hostname := "gitlab.com", pathname := "/a/b" }) (by decide) 30000 5
    (.thrown "TypeError" "fetch failed") (.thrown "TypeError" "fetch failed") none
    (.thrown "TypeError" "fetch failed") (fun _ => .thrown "TypeError" "fetch failed")
    (.thrown "TypeError" "fetch failed") (.thrown "TypeError" "fetch failed")
    (.thrown "TypeError" "fetch failed")
  exact ⟨congrArg Prod.snd h.1, congrArg Prod.snd h.2.2.2⟩

/-! ## C3: per-file fetch outcomes of the key-files tool -/

/-- C3 counterexample: the claim's error text `<status>: <status text>` and
byte-length `size` both diverge from the code.  A 500 response yields the
error `HTTP 500: Internal Server Error` (with the `HTTP ` prefix the claim
omits), and a successful body `é` has `size` 1 (UTF-16 code units, the JS
string length) while its UTF-8 byte length is 2. -/
theorem fetchRawFile_claim_counterexample :
    (fetchRawFile "LICENSE" (.resp 500 "Internal Server Error" [] "")).error =
      some "HTTP 500: Internal Server Error" ∧
    ("HTTP 500: Internal Server Error" : String) ≠ "500: Internal Server Error" ∧
    (fetchRawFile "README.md" (.resp 200 "OK" [] "é")).size = some 1 ∧
    ("é" : String).utf8ByteSize = 2 := by
  refine ⟨by decide, by decide, by decide, by decide⟩

/-- C3 (amended): per-file outcomes of `fetchRawFile` — a 404 yields
`File not found`; any other non-2xx yields `HTTP <status>: <status text>`;
a throw yields the thrown message; success carries the body with `size` its
length in UTF-16 code units and encoding `utf-8`; and `content` is null
exactly when `error` is set. -/
theorem fetchRawFile_outcomes (path : String) (o : FetchOutcome String) :
    (fetchRawFile path o).path = path ∧
    (fetchRawFile path o).encoding = "utf-8" ∧
    (∀ stx hs b, o = .resp 404 stx hs b →
      fetchRawFile path o =
        { path := path, content := none, size := none, encoding := "utf-8",
          error := some "File not found" }) ∧
    (∀ st stx hs b, o = .resp st stx hs b → st ≠ 404 → respOk st = false →
      fetchRawFile path o =
        { path := path, content := none, size := none, encoding := "utf-8",
          error := some ("HTTP " ++ toString st ++ ": " ++ stx) }) ∧
    (∀ nm msg, o = .thrown nm msg →
      fetchRawFile path o =
        { path := path, content := none, size := none, encoding := "utf-8",
          error := some msg }) ∧
    (∀ st stx hs b, o = .resp st stx hs b → respOk st = true →
      fetchRawFile path o =
        { path := path, content := some b, size := some (utf16Len b),
          encoding := "utf-8", error := none }) ∧
    ((fetchRawFile path o).content = none ↔ (fetchRawFile path o).error ≠ none) := by
  cases o with
  | thrown nm msg =>
    refine ⟨rfl, rfl, ?_, ?_, ?_, ?_, ?_⟩
    · intro stx hs b h; cases h
    · intro st stx hs b h; cases h
    · intro nm2 msg2 h; cases h; rfl
    · intro st stx hs b h; cases h
    · simp [fetchRawFile]
  | resp st stx hs b =>
    by_cases h404 : st = 404
    · subst h404
      refine ⟨rfl, rfl, ?_, ?_, ?_, ?_, ?_⟩
      · intro stx2 hs2 b2 h; cases h; rfl
      · intro st2 stx2 hs2 b2 h hne hok; cases h; exact absurd rfl hne
      · intro nm msg h; cases h
      · intro st2 stx2 hs2 b2 h hok; cases h; simp [respOk] at hok
      · simp [fetchRawFile]
    · by_cases hok : respOk st = true
      · refine ⟨?_, ?_, ?_, ?_, ?_, ?_, ?_⟩
        · simp [fetchRawFile, h404, hok]
        · simp [fetchRawFile, h404, hok]
        · intro stx2 hs2 b2 h; cases h; exact absurd rfl h404
        · intro st2 stx2 hs2 b2 h hne hokf; cases h; rw [hok] at hokf; cases hokf
        · intro nm msg h; cases h
        · intro st2 stx2 hs2 b2 h _; cases h; simp [fetchRawFile, h404, hok]
        · simp [fetchRawFile, h404, hok]
      · have hokf : respOk st = false := by
          cases hr : respOk st
          · rfl
          · exact absurd hr hok
        refine ⟨?_, ?_, ?_, ?_, ?_, ?_, ?_⟩
        · simp [fetchRawFile, h404, hokf]
        · simp [fetchRawFile, h404, hokf]
        · intro stx2 hs2 b2 h; cases h; exact absurd rfl h404
        · intro st2 stx2 hs2 b2 h _ _; cases h; simp [fetchRawFile, h404, hokf]
        · intro nm msg h; cases h
        · intro st2 stx2 hs2 b2 h hok2; cases h; rw [hok2] at hokf; cases hokf
        · simp [fetchRawFile, h404, hokf]

/-- Witness for C3 (amended) at a concrete 404 outcome. -/
theorem fetchRawFile_outcomes_witness :
    fetchRawFile "package.json" (.resp 404 "Not Found" [] "") =
      { path := "package.json", content := none, size := none, encoding := "utf-8",
        error := some "File not found" } :=
  (fetchRawFile_outcomes "package.json" (.resp 404 "Not Found" [] "")).2.2.1 "Not Found" [] "" rfl

/-! ## C2: rate-limiter dispatch spacing -/

/-- C2 counterexample: two calls scheduled concurrently at time 0 with delay
100 and an untouched shared timestamp both read the same stale value, both
sleep until time 100, and both dispatch at 100 — spacing 0, not ≥ 100.  The
shared-timestamp write before dispatch does not make concurrently-scheduled
calls queue, because each computed its wake time from the value read before
sleeping. -/
theorem rateLimiter_burst_counterexample :
    runRL 100 10 0 2 (startEvents [0, 0]) = [100, 100] ∧
    gapsOk 100 (runRL 100 10 0 2 (startEvents [0, 0])) = false := by
  refine ⟨by decide, by decide⟩

/-- Spacing established by one pass through the throttle logic: a call that
starts no earlier than the timestamp it read dispatches at least `D` after
that timestamp, and never before its own start. -/
theorem rlDispatch_spacing (D last t : Nat) (h : last ≤ t) :
    last + D ≤ rlDispatch D last t ∧ t ≤ rlDispatch D last t := by
  unfold rlDispatch
  split <;> omega

/-- Start-time validity for serialized issuance: each call starts no earlier
than the dispatch (and shared-timestamp write) of the previous one. -/
def seqStartsValid (D : Nat) : Nat → List Nat → Bool
  | _, [] => true
  | last, t :: ts => decide (last ≤ t) && seqStartsValid D (rlDispatch D last t) ts

/-- C2 (amended): the minimum inter-request spacing `D` between successive
dispatch timestamps holds for calls issued one at a time — each call starting
no earlier than the previous call's dispatch — because each such call then
waits out the remainder of `D` from the timestamp the previous call wrote;
concurrently-scheduled calls, by contrast, can read the same stale timestamp
and dispatch together (see the counterexample). -/
theorem rateLimiter_sequential_spacing (D : Nat) :
    (∀ last t, last ≤ t → last + D ≤ rlDispatch D last t) ∧
    ∀ (last : Nat) (ts : List Nat), seqStartsValid D last ts = true →
      gapsOk D (seqDispatches D last ts) = true := by
  refine ⟨fun last t h => (rlDispatch_spacing D last t h).1, ?_⟩
  intro last ts
  induction ts generalizing last with
  | nil => intro _; rfl
  | cons t ts ih =>
    intro hv
    simp only [seqStartsValid, Bool.and_eq_true, decide_eq_true_eq] at hv
    obtain ⟨hle, hrest⟩ := hv
    cases ts with
    | nil => rfl
    | cons t2 ts2 =>
      simp only [seqDispatches, gapsOk, Bool.and_eq_true]
      constructor
      · simp only [seqStartsValid, Bool.and_eq_true, decide_eq_true_eq] at hrest
        exact decide_eq_true_eq.mpr
          ((rlDispatch_spacing D (rlDispatch D last t) t2 hrest.1).1)
      · have := ih (rlDispatch D last t) hrest
        simpa [seqDispatches, gapsOk] using this

/-- Witness for C2 (amended): three serialized calls with delay 100 starting
at times 0, 150, 500 dispatch at 100, 200, 500, all gaps at least 100. -/
theorem rateLimiter_sequential_spacing_witness :
    gapsOk 100 (seqDispatches 100 0 [0, 150, 500]) = true :=
  (rateLimiter_sequential_spacing 100).2 0 [0, 150, 500] (by decide)

/-! ## C5: activity-snapshot degradation policy -/

/-- C5: with a parsable URL, a failed primary repository-metadata fetch
makes the whole call an `UPSTREAM_ERROR` envelope; with the primary fetch
succeeding, the call succeeds (`ok: true`) whatever the three auxiliary
outcomes are, a failed auxiliary yields a null commit date and message or a
zero count in the final record, and the warning list carries exactly one
entry per missing field (and none for a field that was fetched). -/
theorem activitySnapshot_partial_failure (rawUrl : String) (u : Option UrlParts)
    (info : ParsedRepoInfo) (hp : parseRepoUrl u = some info)
    (repoF : FetchOutcome GitHubRepoResponse)
    (commitF : FetchOutcome (List GitHubCommitResponse))
    (prsF : FetchOutcome (List GitHubPullResponse))
    (contribF : FetchOutcome (List GitHubContributorResponse)) :
    (fetchRepoInfo repoF = none →
      (activitySnapshot rawUrl u repoF commitF prsF contribF).1 =
        createErrorResponse .UPSTREAM_ERROR
          ("Could not fetch repository data for " ++ info.owner ++ "/" ++ info.repo ++
            ". Repository may not exist or be private.")
          [("owner", .s info.owner), ("repo", .s info.repo)]) ∧
    (∀ rd, fetchRepoInfo repoF = some rd →
      (activitySnapshot rawUrl u repoF commitF prsF contribF).1 =
        createSuccessResponse
          { last_commit_date := (fetchLatestCommit commitF).map (fun c => c.commit.author.date)
            last_commit_message := (fetchLatestCommit commitF).map (fun c => c.commit.message)
            open_issues_count := rd.open_issues_count
            open_prs_count := (fetchOpenPRsCount prsF).getD 0
            contributors_count := (fetchContributorsCount contribF).getD 0
            watchers_count := rd.watchers_count
            has_wiki := rd.has_wiki
            has_discussions := rd.has_discussions }
          (some ("https://api.github.com/repos/" ++ info.owner ++ "/" ++ info.repo))
          ((if fetchOpenPRsCount prsF = none then ["Could not fetch open PRs count"] else []) ++
           (if fetchContributorsCount contribF = none then
             ["Could not fetch contributors count"] else []) ++
           (if fetchLatestCommit commitF = none then
             ["Could not fetch latest commit information"] else []))) ∧
    (∀ rd, fetchRepoInfo repoF = some rd →
      (activitySnapshot rawUrl u repoF commitF prsF contribF).1.ok = true ∧
      (fetchOpenPRsCount prsF = none →
        ((activitySnapshot rawUrl u repoF commitF prsF contribF).1.dataOf).map
          (fun d => d.open_prs_count) = some 0 ∧
        ((activitySnapshot rawUrl u repoF commitF prsF contribF).1.warningsOf).count
          "Could not fetch open PRs count" = 1) ∧
      (fetchOpenPRsCount prsF ≠ none →
        ((activitySnapshot rawUrl u repoF commitF prsF contribF).1.warningsOf).count
          "Could not fetch open PRs count" = 0) ∧
      (fetchContributorsCount contribF = none →
        ((activitySnapshot rawUrl u repoF commitF prsF contribF).1.dataOf).map
          (fun d => d.contributors_count) = some 0 ∧
        ((activitySnapshot rawUrl u repoF commitF prsF contribF).1.warningsOf).count
          "Could not fetch contributors count" = 1) ∧
      (fetchContributorsCount contribF ≠ none →
        ((activitySnapshot rawUrl u repoF commitF prsF contribF).1.warningsOf).count
          "Could not fetch contributors count" = 0) ∧
      (fetchLatestCommit commitF = none →
        ((activitySnapshot rawUrl u repoF commitF prsF contribF).1.dataOf).map
          (fun d => (d.last_commit_date, d.last_commit_message)) = some (none, none) ∧
        ((activitySnapshot rawUrl u repoF commitF prsF contribF).1.warningsOf).count
          "Could not fetch latest commit information" = 1) ∧
      (fetchLatestCommit commitF ≠ none →
        ((activitySnapshot rawUrl u repoF commitF prsF contribF).1.warningsOf).count
          "Could not fetch latest commit information" = 0)) := by
  refine ⟨?_, ?_, ?_⟩
  · intro hnone
    simp only [activitySnapshot, hp, hnone]
  · intro rd hsome
    simp only [activitySnapshot, hp, hsome]
  · intro rd hsome
    have heq : (activitySnapshot rawUrl u repoF commitF prsF contribF).1 =
        createSuccessResponse
          { last_commit_date := (fetchLatestCommit commitF).map (fun c => c.commit.author.date)
            last_commit_message := (fetchLatestCommit commitF).map (fun c => c.commit.message)
            open_issues_count := rd.open_issues_count
            open_prs_count := (fetchOpenPRsCount prsF).getD 0
            contributors_count := (fetchContributorsCount contribF).getD 0
            watchers_count := rd.watchers_count
            has_wiki := rd.has_wiki
            has_discussions := rd.has_discussions }
          (some ("https://api.github.com/repos/" ++ info.owner ++ "/" ++ info.repo))
          ((if fetchOpenPRsCount prsF = none then ["Could not fetch open PRs count"] else []) ++
           (if fetchContributorsCount contribF = none then
             ["Could not fetch contributors count"] else []) ++
           (if fetchLatestCommit commitF = none then
             ["Could not fetch latest commit information"] else [])) := by
      simp only [activitySnapshot, hp, hsome]
    rw [heq]
    rcases hprs : fetchOpenPRsCount prsF with _ | nprs <;>
      rcases hcon : fetchContributorsCount contribF with _ | ncon <;>
        rcases hcom : fetchLatestCommit commitF with _ | com <;>
          simp [createSuccessResponse, ApiResponse.ok, ApiResponse.dataOf,
            ApiResponse.warningsOf, List.count_cons, List.count_nil, hprs, hcon, hcom]

/-- Sample repository-metadata body used by the C5 witness (mirrors the
repository's own e2e test fixture). -/
def sampleRepoBody : GitHubRepoResponse :=
  { name := "test-repo", full_name := "owner/test-repo", description := none,
    stargazers_count := 3, forks_count := 1, language := none, topics := none,
    license := none, created_at := "2024-01-01T00:00:00Z",
    updated_at := "2024-06-01T00:00:00Z", default_branch := "main",
    homepage := none, open_issues_count := 15, watchers_count := 100,
    has_wiki := true, has_discussions := true,
    owner := { login := "owner", avatar_url := "a", type := "User" } }

/-- Witness for C5: primary fetch succeeds, commit listing fetch fails, both
counts fetch fine — the envelope is ok with a null commit date and exactly
the commit warning. -/
theorem activitySnapshot_partial_failure_witness :
    ((activitySnapshot "https://github.com/owner/test-repo"
        (some { hostname := "github.com", pathname := "/owner/test-repo" })
        (.resp 200 "OK" [] sampleRepoBody)
        (.thrown "TypeError" "fetch failed")
        (.resp 200 "OK" [] [{ number := 42, state := "open" }])
        (.resp 200 "OK" [] [{ login := "contributor1", contributions := 50 }])).1.ok = true) ∧
    ((activitySnapshot "https://github.com/owner/test-repo"
        (some { hostname := "github.com", pathname := "/owner/test-repo" })
        (.resp 200 "OK" [] sampleRepoBody)
        (.thrown "TypeError" "fetch failed")
        (.resp 200 "OK" [] [{ number := 42, state := "open" }])
        (.resp 200 "OK" [] [{ login := "contributor1", contributions := 50 }])).1.warningsOf).count
      "Could not fetch latest commit information" = 1 := by
  have h := activitySnapshot_partial_failure "https://github.com/owner/test-repo"
    (some { hostname := "github.com", pathname := "/owner/test-repo" })
    { owner := "owner", repo := "test-repo" } (by decide)
    (.resp 200 "OK" [] sampleRepoBody)
    (.thrown "TypeError" "fetch failed")
    (.resp 200 "OK" [] [{ number := 42, state := "open" }])
    (.resp 200 "OK" [] [{ login := "contributor1", contributions := 50 }])
  have h3 := h.2.2 sampleRepoBody rfl
  exact ⟨h3.1, ((h3.2.2.2.2.2.1) rfl).2⟩

/-! ## C6: key-files failure policy -/

/-- Path field of a per-file record is always the requested path. -/
theorem fetchRawFile_path (path : String) (o : FetchOutcome String) :
    (fetchRawFile path o).path = path := by
  cases o with
  | thrown nm msg => rfl
  | resp st stx hs b =>
    simp only [fetchRawFile]
    split_ifs <;> rfl

/-- The warning list of the key-files tool has at most two entries. -/
theorem keyFilesWarnings_length (files : List FileContent) :
    (keyFilesWarnings files).length ≤ 2 := by
  simp only [keyFilesWarnings]
  split_ifs <;> simp

/-- C6: with a parsable URL, the key-files call returns an error envelope —
always `UPSTREAM_ERROR` — exactly when default-branch resolution fails (a
failed or non-2xx lookup, or a falsy empty-string branch, per the code's
`!defaultBranch` test); otherwise it succeeds with one file entry per
requested path (in order) and at most two warnings: one summarizing the
not-found files, one summarizing the other per-file errors. -/
theorem extractKeyFiles_branch_gate (rawUrl : String) (u : Option UrlParts)
    (info : ParsedRepoInfo) (hp : parseRepoUrl u = some info)
    (paths : Option (List String)) (bf : FetchOutcome RepoBranchBody)
    (ff : String → FetchOutcome String) :
    (branchTruthy (getDefaultBranch bf) = none →
      (extractKeyFiles rawUrl u paths bf ff).1 =
        createErrorResponse .UPSTREAM_ERROR
          ("Could not determine default branch for " ++ info.owner ++ "/" ++ info.repo ++
            ". Repository may not exist or be private.")
          [("owner", .s info.owner), ("repo", .s info.repo)]) ∧
    ((extractKeyFiles rawUrl u paths bf ff).1.ok = false ↔
      branchTruthy (getDefaultBranch bf) = none) ∧
    (∀ b, branchTruthy (getDefaultBranch bf) = some b →
      (extractKeyFiles rawUrl u paths bf ff).1 =
        createSuccessResponse
          { files := (selectPaths paths).map (fun p => fetchRawFile p (ff p)),
            default_branch := b }
          (some ("https://github.com/" ++ info.owner ++ "/" ++ info.repo))
          (keyFilesWarnings ((selectPaths paths).map (fun p => fetchRawFile p (ff p)))) ∧
      ((selectPaths paths).map (fun p => fetchRawFile p (ff p))).map (fun f => f.path) =
        selectPaths paths ∧
      (keyFilesWarnings ((selectPaths paths).map (fun p => fetchRawFile p (ff p)))).length ≤ 2) := by
  refine ⟨?_, ?_, ?_⟩
  · intro hnone
    simp only [extractKeyFiles, hp, hnone]
  · rcases hb : branchTruthy (getDefaultBranch bf) with _ | b
    · simp [extractKeyFiles, hp, hb, createErrorResponse, ApiResponse.ok]
    · simp [extractKeyFiles, hp, hb, createSuccessResponse, ApiResponse.ok]
  · intro b hb
    refine ⟨by simp only [extractKeyFiles, hp, hb], ?_, keyFilesWarnings_length _⟩
    rw [List.map_map]
    have : ((fun f => f.path) ∘ fun p => fetchRawFile p (ff p)) = fun p => p := by
      funext p
      exact fetchRawFile_path p (ff p)
    rw [this]
    exact List.map_id' _

/-- Witness for C6, the claim's concrete scenario: branch `main`, README
succeeds, the three other defaults are 404 — four entries, exactly one with
non-null content, three with `File not found`, and one warning naming the
three missing paths. -/
theorem extractKeyFiles_branch_gate_witness :
    ((extractKeyFiles "https://github.com/owner/test-repo"
        (some { hostname := "github.com", pathname := "/owner/test-repo" }) none
        (.resp 200 "OK" [] { default_branch := some "main" })
        (fun p => if p = "README.md" then .resp 200 "OK" [] "# Test Repo\nDescription here"
          else .resp 404 "Not Found" [] "")).1.ok = true) ∧
    ((extractKeyFiles "https://github.com/owner/test-repo"
        (some { hostname := "github.com", pathname := "/owner/test-repo" }) none
        (.resp 200 "OK" [] { default_branch := some "main" })
        (fun p => if p = "README.md" then .resp 200 "OK" [] "# Test Repo\nDescription here"
          else .resp 404 "Not Found" [] "")).1.dataOf).map
      (fun d => (d.files.length, (d.files.filter (fun f => f.content ≠ none)).length,
        (d.files.filter (fun f => f.error = some "File not found")).map (fun f => f.path))) =
      some (4, 1, ["LICENSE", "package.json", "pyproject.toml"]) ∧
    ((extractKeyFiles "https://github.com/owner/test-repo"
        (some { hostname := "github.com", pathname := "/owner/test-repo" }) none
        (.resp 200 "OK" [] { default_branch := some "main" })
        (fun p => if p = "README.md" then .resp 200 "OK" [] "# Test Repo\nDescription here"
          else .resp 404 "Not Found" [] "")).1.warningsOf) =
      ["Files not found: LICENSE, package.json, pyproject.toml"] := by
  have h := extractKeyFiles_branch_gate "https://github.com/owner/test-repo"
    (some { hostname := "github.com", pathname := "/owner/test-repo" })
    { owner := "owner", repo := "test-repo" } (by decide) none
    (.resp 200 "OK" [] { default_branch := some "main" })
    (fun p => if p = "README.md" then .resp 200 "OK" [] "# Test Repo\nDescription here"
      else .resp 404 "Not Found" [] "")
  have hok : ¬ ((extractKeyFiles "https://github.com/owner/test-repo"
      (some { hostname := "github.com", pathname := "/owner/test-repo" }) none
      (.resp 200 "OK" [] { default_branch := some "main" })
      (fun p => if p = "README.md" then .resp 200 "OK" [] "# Test Repo\nDescription here"
        else .resp 404 "Not Found" [] "")).1.ok = false) := by
    rw [h.2.1]
    decide
  have heq := (h.2.2 "main" rfl).1
  refine ⟨?_, ?_, ?_⟩
  · cases hv : ((extractKeyFiles "https://github.com/owner/test-repo"
      (some { hostname := "github.com", pathname := "/owner/test-repo" }) none
      (.resp 200 "OK" [] { default_branch := some "main" })
      (fun p => if p = "README.md" then .resp 200 "OK" [] "# Test Repo\nDescription here"
        else .resp 404 "Not Found" [] "")).1.ok)
    · exact absurd hv hok
    · rfl
  · rw [heq]; decide
  · rw [heq]; decide

/-! ## Characterization of the regex-style page-marker scan -/

/-- Presence of an occurrence of the textual pattern `page=<digits><suffix>`
somewhere in a character list — the matching condition of the JS regex
`/page=(\d+)<suffix>/`. -/
def hasPageMarker (suffix : List Char) (cs : List Char) : Prop :=
  ∃ pre ds post, cs = pre ++ ("page=").toList ++ ds ++ suffix ++ post ∧ ds ≠ [] ∧
    ∀ c ∈ ds, isDig c = true

/-- Splitting of a digit run followed by a non-digit boundary under
`takeWhile`/`dropWhile`. -/
theorem takeWhile_digits_append (ds rest : List Char)
    (hds : ∀ c ∈ ds, isDig c = true)
    (hrest : ∀ c, rest.head? = some c → isDig c = false) :
    (ds ++ rest).takeWhile isDig = ds ∧ (ds ++ rest).dropWhile isDig = rest := by
  induction ds with
  | nil =>
    cases rest with
    | nil => exact ⟨rfl, rfl⟩
    | cons r rs =>
      have hr : isDig r = false := hrest r rfl
      constructor
      · simp [List.takeWhile_cons, hr]
      · simp [List.dropWhile_cons, hr]
  | cons d dsI ih =>
    have hd : isDig d = true := hds d (by simp)
    have ihh := ih (fun c hc => hds c (by simp [hc]))
    constructor
    · simp only [List.cons_append, List.takeWhile_cons, hd]
      simp [ihh.1]
    · simp only [List.cons_append, List.dropWhile_cons, hd]
      simp [ihh.2]

/-- Forward direction of the single-position matcher: a successful match
decomposes the input. -/
theorem matchPageAt_eq_some (suffix cs ds : List Char)
    (h : matchPageAt suffix cs = some ds) :
    ∃ post, cs = ("page=").toList ++ ds ++ suffix ++ post ∧ ds ≠ [] ∧
      ∀ c ∈ ds, isDig c = true := by
  unfold matchPageAt at h
  split at h
  case isFalse => cases h
  case isTrue hpre =>
    have hcs : ("page=").toList <+: cs := List.isPrefixOf_iff_prefix.mp hpre
    obtain ⟨t, ht⟩ := hcs
    have hdrop : cs.drop 5 = t := by
      rw [← ht]
      have h5 : ("page=").toList.length = 5 := by decide
      rw [← h5, List.drop_left]
    rw [hdrop] at h
    split at h
    case isTrue => cases h
    case isFalse hne =>
      split at h
      case isFalse => cases h
      case isTrue hsuf =>
        have hds : ds = t.takeWhile isDig := by cases h; rfl
        have hsufp : suffix <+: t.dropWhile isDig := List.isPrefixOf_iff_prefix.mp hsuf
        obtain ⟨post, hpost⟩ := hsufp
        refine ⟨post, ?_, ?_, ?_⟩
        · rw [← ht, hds]
          conv_lhs => rw [show t = List.takeWhile isDig t ++ (suffix ++ post) from by
            rw [hpost, List.takeWhile_append_dropWhile]]
          simp [List.append_assoc]
        · intro hnil
          rw [hds] at hnil
          rw [hnil] at hne
          simp at hne
        · intro c hc
          rw [hds] at hc
          exact List.mem_takeWhile_imp hc

/-- Backward direction of the single-position matcher: at an occurrence of
the pattern (with the suffix opening on a non-digit), the match succeeds and
captures exactly the digit run. -/
theorem matchPageAt_of_decomp (s0 : Char) (stail cs ds post : List Char)
    (heq : cs = ("page=").toList ++ ds ++ (s0 :: stail) ++ post)
    (hs0 : isDig s0 = false) (hne : ds ≠ []) (hds : ∀ c ∈ ds, isDig c = true) :
    matchPageAt (s0 :: stail) cs = some ds := by
  unfold matchPageAt
  have hpre : ("page=").toList.isPrefixOf cs = true := by
    rw [List.isPrefixOf_iff_prefix, heq]
    exact ⟨ds ++ (s0 :: stail) ++ post, by simp [List.append_assoc]⟩
  rw [if_pos hpre]
  have hdrop : cs.drop 5 = ds ++ ((s0 :: stail) ++ post) := by
    rw [heq]
    have h5 : ("page=").toList.length = 5 := by decide
    rw [show ("page=").toList ++ ds ++ (s0 :: stail) ++ post =
      ("page=").toList ++ (ds ++ ((s0 :: stail) ++ post)) from by simp [List.append_assoc]]
    rw [← h5, List.drop_left]
  rw [hdrop]
  have hsplit := takeWhile_digits_append ds ((s0 :: stail) ++ post) hds
    (by intro c hc; simp only [List.cons_append, List.head?_cons, Option.some.injEq] at hc
        exact hc ▸ hs0)
  rw [hsplit.1, hsplit.2]
  have hemp : ds.isEmpty = false := by
    cases ds with
    | nil => exact absurd rfl hne
    | cons a l => rfl
  rw [hemp]
  simp only [Bool.false_eq_true, if_false]
  have hsufp : (s0 :: stail).isPrefixOf ((s0 :: stail) ++ post) = true := by
    rw [List.isPrefixOf_iff_prefix]
    exact ⟨_, rfl⟩
  rw [if_pos hsufp]

/-- A successful scan exhibits an occurrence of the pattern whose digit run
is the captured group. -/
theorem scanPageMarker_some (suffix cs ds : List Char)
    (h : scanPageMarker suffix cs = some ds) :
    ∃ pre post, cs = pre ++ ("page=").toList ++ ds ++ suffix ++ post ∧ ds ≠ [] ∧
      ∀ c ∈ ds, isDig c = true := by
  induction cs with
  | nil => cases h
  | cons c rest ih =>
    rw [scanPageMarker] at h
    cases hm : matchPageAt suffix (c :: rest) with
    | some ds2 =>
      rw [hm] at h
      have hds2 : ds2 = ds := by cases h; rfl
      subst hds2
      obtain ⟨post, heq, hne, hdig⟩ := matchPageAt_eq_some suffix (c :: rest) ds2 hm
      refine ⟨[], post, ?_, hne, hdig⟩
      simpa using heq
    | none =>
      rw [hm] at h
      obtain ⟨pre, post, heq, hne, hdig⟩ := ih h
      exact ⟨c :: pre, post, by simp [heq], hne, hdig⟩

/-- A failed scan means the pattern occurs nowhere (for a suffix opening on
a non-digit, as both `rel` suffixes do). -/
theorem scanPageMarker_none (s0 : Char) (stail : List Char) (cs : List Char)
    (hs0 : isDig s0 = false)
    (h : scanPageMarker (s0 :: stail) cs = none) :
    ¬ hasPageMarker (s0 :: stail) cs := by
  induction cs with
  | nil =>
    rintro ⟨pre, ds, post, heq, hne, hds⟩
    cases pre <;> simp at heq
  | cons c rest ih =>
    rw [scanPageMarker] at h
    cases hm : matchPageAt (s0 :: stail) (c :: rest) with
    | some ds2 => rw [hm] at h; cases h
    | none =>
      rw [hm] at h
      rintro ⟨pre, ds, post, heq, hne, hds⟩
      cases pre with
      | nil =>
        simp only [List.nil_append] at heq
        rw [matchPageAt_of_decomp s0 stail (c :: rest) ds post heq hs0 hne hds] at hm
        cases hm
      | cons c2 pre2 =>
        have h2 : rest = pre2 ++ ("page=").toList ++ ds ++ (s0 :: stail) ++ post := by
          simpa using congrArg List.tail heq
        exact ih h ⟨pre2, ds, post, h2, hne, hds⟩

/-! ## C1: pagination-count inference of the activity snapshot -/

/-- C1 counterexample: the `rel="last"` entry of the Link header marks page
3 (its URL's `page` query parameter, read by `linkRelPage`), but the page
parameter is not the final one before `>`, so the regex
`page=(\d+)>; rel="last"` does not match and the code reports the length of
the one-element array instead of 3 — even though a pagination hint is
present. -/
theorem paginationCount_counterexample :
    linkRelPage "last"
      "<https://api.github.com/repos/o/r/pulls?page=3&state=open>; rel=\"last\"" =
        some "3" ∧
    fetchOpenPRsCount (.resp 200 "OK"
      [("link", "<https://api.github.com/repos/o/r/pulls?page=3&state=open>; rel=\"last\"")]
      [{ number := 42, state := "open" }]) = some 1 ∧
    some 1 ≠ some (3 : Nat) := by
  refine ⟨by decide, by decide, by decide⟩

/-- C1 (amended): for every successful count fetch, the reported count is
the number captured by the leftmost occurrence of the literal pattern
`page=<digits>>; rel="last"` in the Link header when that pattern occurs
(the scan succeeding exactly when it occurs), and the length of the returned
array otherwise — including when a Link header is present whose `rel="last"`
page parameter does not sit in that exact textual position. -/
theorem paginationCount_inference
    (st : Nat) (stx : String) (hs : List (String × String))
    (prBody : List GitHubPullResponse) (cBody : List GitHubContributorResponse)
    (hok : respOk st = true) :
    (headerTruthy (getHeader hs "link") = none →
      fetchOpenPRsCount (.resp st stx hs prBody) = some prBody.length ∧
      fetchContributorsCount (.resp st stx hs cBody) = some cBody.length) ∧
    (∀ link, headerTruthy (getHeader hs "link") = some link →
      (∀ ds, scanPageMarker relLastSuffix link.toList = some ds →
        fetchOpenPRsCount (.resp st stx hs prBody) = some (digitsToNat ds) ∧
        fetchContributorsCount (.resp st stx hs cBody) = some (digitsToNat ds) ∧
        hasPageMarker relLastSuffix link.toList) ∧
      (scanPageMarker relLastSuffix link.toList = none →
        ¬ hasPageMarker relLastSuffix link.toList ∧
        fetchOpenPRsCount (.resp st stx hs prBody) = some prBody.length ∧
        fetchContributorsCount (.resp st stx hs cBody) = some cBody.length)) := by
  constructor
  · intro hnone
    constructor
    · simp [fetchOpenPRsCount, hok, hnone]
    · simp [fetchContributorsCount, hok, hnone]
  · intro link hlink
    constructor
    · intro ds hscan
      have hscan2 : scanPageMarker relLastSuffix link.data = some ds := hscan
      refine ⟨?_, ?_, ?_⟩
      · simp [fetchOpenPRsCount, hok, hlink, hscan2]
      · simp [fetchContributorsCount, hok, hlink, hscan2]
      · obtain ⟨pre, post, heq, hne, hdig⟩ :=
          scanPageMarker_some relLastSuffix link.toList ds hscan
        exact ⟨pre, ds, post, heq, hne, hdig⟩
    · intro hscan
      have hscan2 : scanPageMarker relLastSuffix link.data = none := hscan
      refine ⟨?_, ?_, ?_⟩
      · exact scanPageMarker_none '>' (relLastSuffix.drop 1) link.toList (by decide)
          (by simpa [relLastSuffix] using hscan)
      · simp [fetchOpenPRsCount, hok, hlink, hscan2]
      · simp [fetchContributorsCount, hok, hlink, hscan2]

/-- Witness for C1 (amended), on the canonical GitHub header shapes of the
repository's own tests: `page=3` for pulls yields count 3, `page=25` for
contributors yields 25. -/
theorem paginationCount_inference_witness :
    fetchOpenPRsCount (.resp 200 "OK"
      [("link", "<https://api.github.com/repos/owner/repo/pulls?page=3>; rel=\"last\"")]
      [{ number := 42, state := "open" }]) = some 3 ∧
    fetchContributorsCount (.resp 200 "OK"
      [("link", "<https://api.github.com/repos/owner/repo/contributors?page=25>; rel=\"last\"")]
      [{ login := "contributor1", contributions := 50 }]) = some 25 := by
  have h1 := paginationCount_inference 200 "OK"
    [("link", "<https://api.github.com/repos/owner/repo/pulls?page=3>; rel=\"last\"")]
    [{ number := 42, state := "open" }] [] (by decide)
  have h2 := paginationCount_inference 200 "OK"
    [("link", "<https://api.github.com/repos/owner/repo/contributors?page=25>; rel=\"last\"")]
    [] [{ login := "contributor1", contributions := 50 }] (by decide)
  have e1 := ((h1.2 "<https://api.github.com/repos/owner/repo/pulls?page=3>; rel=\"last\""
    (by decide)).1 ['3'] (by decide)).1
  have e2 := ((h2.2 "<https://api.github.com/repos/owner/repo/contributors?page=25>; rel=\"last\""
    (by decide)).1 ['2', '5'] (by decide)).2.1
  exact ⟨e1.trans (by decide), e2.trans (by decide)⟩

/-! ## C8: next-page cursor of the release-notes tool -/

/-- C8 counterexample: the Link header's `rel="next"` entry marks next page
2, but its `page` parameter is not the final one before `>`; the regex
`page=(\d+)>; rel="next"` instead matches inside `per_page=5>` and the tool
reports cursor `"5"`, not the next page number `"2"`. -/
theorem releasesCursor_counterexample :
    linkRelPage "next"
      "<https://api.github.com/repos/a/b/releases?page=2&per_page=5>; rel=\"next\"" =
        some "2" ∧
    (releaseNotes "https://github.com/a/b"
      (some { hostname := "github.com", pathname := "/a/b" }) 5 30000
      (.resp 200 "OK"
        [("link",
          "<https://api.github.com/repos/a/b/releases?page=2&per_page=5>; rel=\"next\"")]
        [{ tag_name := "v1.0.0", name := none, body := none, published_at := none,
           prerelease := false, draft := false, html_url := "u" }])).1.cursorOf = some "5" ∧
    some ("5" : String) ≠ some "2" := by
  refine ⟨by decide, by decide, by decide⟩

/-- C8 (amended): for every successful release-notes response the cursor is
the code's header inference `releasesNextCursor`: null when the Link header
is absent (the claim's second half holds as stated); when the header is
present and contains `rel="next"`, the cursor is the digit string captured at
the leftmost occurrence of the literal pattern `page=<digits>>; rel="next"`
(the scan succeeding exactly when that pattern occurs somewhere in the
header, including inside `per_page`), and null when the pattern does not
occur — even if the header does indicate a further page. -/
theorem releasesCursor_inference (rawUrl : String) (u : Option UrlParts)
    (info : ParsedRepoInfo) (hp : parseRepoUrl u = some info)
    (limit : Int) (hl : ¬ (limit < 1 ∨ 100 < limit)) (timeoutMs : Nat)
    (st : Nat) (stx : String) (hs : List (String × String))
    (body : List GitHubReleaseResponse) (hok : respOk st = true) :
    (releaseNotes rawUrl u limit timeoutMs (.resp st stx hs body)).1.cursorOf =
      releasesNextCursor hs ∧
    (headerTruthy (getHeader hs "link") = none → releasesNextCursor hs = none) ∧
    (∀ link, headerTruthy (getHeader hs "link") = some link →
      (containsSub ("rel=\"next\"").toList link.toList = true →
        (∀ ds, scanPageMarker relNextSuffix link.toList = some ds →
          releasesNextCursor hs = some (String.mk ds) ∧
          hasPageMarker relNextSuffix link.toList) ∧
        (scanPageMarker relNextSuffix link.toList = none →
          releasesNextCursor hs = none ∧ ¬ hasPageMarker relNextSuffix link.toList)) ∧
      (containsSub ("rel=\"next\"").toList link.toList = false →
        releasesNextCursor hs = none)) := by
  have hb : 200 ≤ st ∧ st ≤ 299 := by
    have hh := hok
    simp [respOk] at hh
    exact hh
  have h404 : ¬ st = 404 := by omega
  have h403 : ¬ st = 403 := by omega
  refine ⟨?_, ?_, ?_⟩
  · simp only [releaseNotes, hp]
    rw [if_neg hl]
    simp [h404, h403, hok, createSuccessResponse, ApiResponse.cursorOf]
  · intro hnone
    simp [releasesNextCursor, hnone]
  · intro link hlink
    constructor
    · intro hcont
      constructor
      · intro ds hscan
        constructor
        · simp only [releasesNextCursor, hlink]
          rw [if_pos hcont, hscan]
        · obtain ⟨pre, post, heq, hne, hdig⟩ :=
            scanPageMarker_some relNextSuffix link.toList ds hscan
          exact ⟨pre, ds, post, heq, hne, hdig⟩
      · intro hscan
        constructor
        · simp only [releasesNextCursor, hlink]
          rw [if_pos hcont, hscan]
        · exact scanPageMarker_none '>' (relNextSuffix.drop 1) link.toList (by decide)
            (by simpa [relNextSuffix] using hscan)
    · intro hcont
      simp only [releasesNextCursor, hlink]
      rw [if_neg (by rw [hcont]; exact fun hx => Bool.false_ne_true hx)]

/-- Witness for C8 (amended), on the canonical GitHub header shape with the
page parameter in final position: cursor `"2"`. -/
theorem releasesCursor_inference_witness :
    (releaseNotes "https://github.com/a/b"
      (some { hostname := "github.com", pathname := "/a/b" }) 5 30000
      (.resp 200 "OK"
        [("link",
          "<https://api.github.com/repos/a/b/releases?per_page=5&page=2>; rel=\"next\"")]
        [])).1.cursorOf = some "2" := by
  have h := releasesCursor_inference "https://github.com/a/b"
    (some { hostname := "github.com", pathname := "/a/b" })
    { owner := "a", repo := "b" } (by decide) 5 (by decide) 30000 200 "OK"
    [("link", "<https://api.github.com/repos/a/b/releases?per_page=5&page=2>; rel=\"next\"")]
    [] (by decide)
  have hc := ((h.2.2
    "<https://api.github.com/repos/a/b/releases?per_page=5&page=2>; rel=\"next\""
    (by decide)).1 (by decide)).1 ['2'] (by decide)
  rw [h.1, hc.1]

/-! ## Digit-character and calendar lemmas for the ISO conversion -/

/-- Facts about single digit characters, checked over the ten digits. -/
theorem digitChar_facts : ∀ m : Fin 10,
    (digitChar m.val).toNat = 48 + m.val ∧ isDig (digitChar m.val) = true ∧
    ¬ digitChar m.val = '+' ∧ ¬ digitChar m.val = '-' := by decide

/-- The digit character depends only on the last decimal digit. -/
theorem digitChar_eq_mod (n : Nat) : digitChar n = digitChar (n % 10) := by
  unfold digitChar
  congr 1
  omega

/-- Every digit character passes the digit test. -/
theorem isDig_digitChar (n : Nat) : isDig (digitChar n) = true := by
  rw [digitChar_eq_mod]
  exact (digitChar_facts ⟨n % 10, Nat.mod_lt _ (by omega)⟩).2.1

/-- Numeric value of a digit character. -/
theorem toNat_digitChar (n : Nat) : (digitChar n).toNat = 48 + n % 10 := by
  rw [digitChar_eq_mod]
  have h := (digitChar_facts ⟨n % 10, Nat.mod_lt _ (by omega)⟩).1
  simpa [Nat.mod_mod_of_dvd] using h

/-- A digit character is neither sign character. -/
theorem digitChar_ne_sign (n : Nat) : ¬ (digitChar n = '+' ∨ digitChar n = '-') := by
  rw [digitChar_eq_mod]
  have h := digitChar_facts ⟨n % 10, Nat.mod_lt _ (by omega)⟩
  rintro (hx | hx)
  · exact h.2.2.1 hx
  · exact h.2.2.2 hx

/-- Recomposition of a two-digit zero-padded field. -/
theorem val2_pad2 (n : Nat) (h : n < 100) :
    val2 (digitChar (n / 10)) (digitChar n) = n := by
  unfold val2
  rw [toNat_digitChar, toNat_digitChar]
  omega

/-- A year always has at least 365 days. -/
theorem daysInYear_ge (y : Nat) : 365 ≤ daysInYear y := by
  unfold daysInYear
  split <;> omega

/-- A year has at most 366 days. -/
theorem daysInYear_le (y : Nat) : daysInYear y ≤ 366 := by
  unfold daysInYear
  split <;> omega

/-- With enough fuel, the year walk ends on a day-of-year inside its year. -/
theorem yearAndDoyAux_inv : ∀ (fuel y d : Nat), d ≤ fuel →
    (yearAndDoyAux fuel y d).2 < daysInYear (yearAndDoyAux fuel y d).1 := by
  intro fuel
  induction fuel with
  | zero =>
    intro y d hd
    have hd0 : d = 0 := Nat.le_zero.mp hd
    subst hd0
    have := daysInYear_ge y
    simpa [yearAndDoyAux] using by omega
  | succ f ih =>
    intro y d hd
    rw [yearAndDoyAux]
    split
    case isTrue h =>
      apply ih
      have := daysInYear_ge y
      omega
    case isFalse h =>
      simp only
      omega

set_option maxRecDepth 4000 in
/-- Month and day bounds for a leap-year day-of-year, checked pointwise. -/
theorem monthAndDayAux_leap : ∀ doy : Fin 366,
    (fun md => 1 ≤ md.1 ∧ md.1 ≤ 12 ∧ 1 ≤ md.2 ∧ md.2 ≤ 31)
      (monthAndDayAux 1 [31, 29, 31, 30, 31, 30, 31, 31, 30, 31, 30, 31] doy.val) := by
  decide

set_option maxRecDepth 4000 in
/-- Month and day bounds for a common-year day-of-year, checked pointwise. -/
theorem monthAndDayAux_common : ∀ doy : Fin 365,
    (fun md => 1 ≤ md.1 ∧ md.1 ≤ 12 ∧ 1 ≤ md.2 ∧ md.2 ≤ 31)
      (monthAndDayAux 1 [31, 28, 31, 30, 31, 30, 31, 31, 30, 31, 30, 31] doy.val) := by
  decide

/-- Month in 1-12 and day in 1-31 for any in-range day-of-year. -/
theorem monthAndDay_bounds (y doy : Nat) (h : doy < daysInYear y) :
    1 ≤ (monthAndDay y doy).1 ∧ (monthAndDay y doy).1 ≤ 12 ∧
    1 ≤ (monthAndDay y doy).2 ∧ (monthAndDay y doy).2 ≤ 31 := by
  unfold monthAndDay monthLengths
  by_cases hl : daysInYear y = 366
  · rw [if_pos hl]
    rw [hl] at h
    exact monthAndDayAux_leap ⟨doy, h⟩
  · rw [if_neg hl]
    have h365 : doy < 365 := by
      have h1 := daysInYear_ge y
      have h2 := daysInYear_le y
      omega
    exact monthAndDayAux_common ⟨doy, h365⟩

/-- The date-time tail built from in-range fields passes the checker. -/
theorem isoTailOk_build (m d h mi s f : Nat)
    (hm1 : 1 ≤ m) (hm2 : m ≤ 12) (hd1 : 1 ≤ d) (hd2 : d ≤ 31)
    (hho : h ≤ 23) (hmi : mi ≤ 59) (hsec : s ≤ 59) :
    isoTailOk ('-' :: pad2 m ++ '-' :: pad2 d ++ 'T' :: pad2 h ++ ':' :: pad2 mi ++
      ':' :: pad2 s ++ '.' :: pad3 f ++ ['Z']) = true := by
  simp only [pad2, pad3, List.cons_append, List.nil_append, isoTailOk]
  simp only [Bool.and_eq_true, decide_eq_true_eq]
  repeat' apply And.intro
  all_goals first
    | exact isDig_digitChar _
    | (rw [val2_pad2 _ (by omega)]; omega)

/-- Every rendering produced by the ISO formatter is a valid ISO-8601
timestamp: the calendar fields land in range for any timestamp. -/
theorem isValidIso8601_isoChars (ms : Nat) :
    isValidIso8601 (String.mk (isoChars ms)) = true := by
  have hrem : ms % 86400000 < 86400000 := Nat.mod_lt _ (by omega)
  have hyd := yearAndDoyAux_inv (ms / 86400000) 1970 (ms / 86400000) (Nat.le_refl _)
  have hmd := monthAndDay_bounds (yearAndDoy (ms / 86400000)).1
    (yearAndDoy (ms / 86400000)).2 (by exact hyd)
  obtain ⟨hm1, hm2, hd1, hd2⟩ := hmd
  have hh : ms % 86400000 / 3600000 ≤ 23 := by omega
  have hmi : ms % 86400000 % 3600000 / 60000 ≤ 59 := by omega
  have hsec : ms % 86400000 % 60000 / 1000 ≤ 59 := by omega
  have htail := isoTailOk_build (monthAndDay (yearAndDoy (ms / 86400000)).1
      (yearAndDoy (ms / 86400000)).2).1
    (monthAndDay (yearAndDoy (ms / 86400000)).1 (yearAndDoy (ms / 86400000)).2).2
    (ms % 86400000 / 3600000) (ms % 86400000 % 3600000 / 60000)
    (ms % 86400000 % 60000 / 1000) (ms % 86400000 % 1000)
    hm1 hm2 hd1 hd2 hh hmi hsec
  show isValidIso8601 (String.mk (isoChars ms)) = true
  unfold isValidIso8601 isoChars
  simp only [String.toList]
  by_cases hy : (yearAndDoy (ms / 86400000)).1 ≤ 9999
  · rw [if_pos hy]
    simp only [pad4, List.cons_append, List.nil_append]
    rw [if_neg (digitChar_ne_sign _)]
    simp only [Bool.and_eq_true]
    repeat' apply And.intro
    all_goals first
      | exact isDig_digitChar _
      | (simpa [pad2, pad3, List.cons_append, List.nil_append] using htail)
  · rw [if_neg hy]
    simp only [pad6, List.cons_append, List.nil_append]
    rw [if_pos (Or.inl trivial)]
    simp only [Bool.and_eq_true]
    repeat' apply And.intro
    all_goals first
      | exact isDig_digitChar _
      | exact (by decide : isDig '+' = true)
      | (simpa [pad2, pad3, List.cons_append, List.nil_append] using htail)

/-! ## JS parseInt on digit strings -/

/-- A list all of whose elements satisfy the predicate is its own
`takeWhile`. -/
theorem takeWhile_all_eq {p : Char → Bool} :
    ∀ l : List Char, (∀ c ∈ l, p c = true) → l.takeWhile p = l := by
  intro l
  induction l with
  | nil => intro _; rfl
  | cons a t ih =>
    intro hall
    rw [List.takeWhile_cons_of_pos (hall a (by simp))]
    rw [ih (fun c hc => hall c (by simp [hc]))]

/-- A digit character is not JS whitespace. -/
theorem digit_not_space (c : Char) (h : isDig c = true) : isJsSpace c = false := by
  simp only [isDig, Bool.and_eq_true, decide_eq_true_eq] at h
  simp only [isJsSpace, decide_eq_false_iff_not]
  rintro (rfl | rfl | rfl | rfl) <;> simp_all

/-- A digit character is not a sign character. -/
theorem digit_ne_sign (c : Char) (h : isDig c = true) : c ≠ '-' ∧ c ≠ '+' := by
  simp only [isDig, Bool.and_eq_true, decide_eq_true_eq] at h
  constructor <;> rintro rfl <;> simp_all

/-- `parseInt` on a non-empty all-digit string returns its decimal value. -/
theorem parseIntJS_digits (v : String) (hne : v.toList ≠ [])
    (hds : ∀ c ∈ v.toList, isDig c = true) :
    parseIntJS v = some ((digitsToNat v.toList : Nat) : Int) := by
  unfold parseIntJS
  obtain ⟨c, rest, hc⟩ : ∃ c rest, v.toList = c :: rest := by
    cases hv : v.toList with
    | nil => exact absurd hv hne
    | cons a l => exact ⟨a, l, rfl⟩
  rw [hc]
  have hcd : isDig c = true := hds c (by rw [hc]; exact List.mem_cons_self c rest)
  have hsp : isJsSpace c = false := digit_not_space c hcd
  have hsign := digit_ne_sign c hcd
  have hall : ∀ x ∈ c :: rest, isDig x = true := by
    intro x hx
    exact hds x (by rw [hc]; exact hx)
  rw [List.dropWhile_cons_of_neg (by simp [hsp])]
  split
  case h_1 r heq =>
    injection heq with h1 _
    exact absurd h1 hsign.1
  case h_2 r heq =>
    injection heq with h1 _
    exact absurd h1 hsign.2
  case h_3 =>
    rw [takeWhile_all_eq _ hall]
    rw [show (c :: rest).isEmpty = false from rfl]
    simp only [Bool.false_eq_true, if_false]

/-! ## C4: 403 rate-limit classification -/

/-- Reset-header conversion on an in-range epoch-seconds digit string: the
ISO rendering is produced (no throw) and passes the validity checker. -/
theorem resetIso_digits (v : String) (hne : v.toList ≠ [])
    (hds : ∀ c ∈ v.toList, isDig c = true)
    (hbound : digitsToNat v.toList ≤ 8640000000000) :
    resetIso v = some (String.mk (isoChars (digitsToNat v.toList * 1000))) ∧
    isValidIso8601 (String.mk (isoChars (digitsToNat v.toList * 1000))) = true := by
  constructor
  · unfold resetIso
    rw [parseIntJS_digits v hne hds]
    show (if ((digitsToNat v.toList : Nat) : Int) < 0 then none
        else isoOfMs (((digitsToNat v.toList : Nat) : Int).toNat * 1000)) =
      some (String.mk (isoChars (digitsToNat v.toList * 1000)))
    rw [if_neg (by omega : ¬ ((digitsToNat v.toList : Nat) : Int) < 0)]
    unfold isoOfMs
    rw [Int.toNat_natCast]
    rw [if_neg (by omega : ¬ 8640000000000000 < digitsToNat v.toList * 1000)]
  · exact isValidIso8601_isoChars _

/-- C4: a 403 response whose `x-ratelimit-remaining` header is `"0"` makes
both the overview and the release-notes tool return `RATE_LIMITED` with
`details.reset_at` null when the reset header is absent (or empty, hence
falsy), and a valid ISO-8601 timestamp converted from the header when it
carries an epoch-seconds value within the JS `Date` range; any other 403
yields `UPSTREAM_ERROR` (`Access forbidden`) from both tools. -/
theorem rateLimit403_policy (rawUrl : String) (u : Option UrlParts)
    (info : ParsedRepoInfo) (hp : parseRepoUrl u = some info) (timeoutMs : Nat)
    (limit : Int) (hl : ¬ (limit < 1 ∨ 100 < limit))
    (stx : String) (hs : List (String × String))
    (bodyO : GitHubRepoResponse) (bodyR : List GitHubReleaseResponse) :
    ((repoOverview rawUrl u timeoutMs (.resp 403 stx hs bodyO)).1 = classify403 hs ∧
     (releaseNotes rawUrl u limit timeoutMs (.resp 403 stx hs bodyR)).1 = classify403 hs) ∧
    (getHeader hs "x-ratelimit-remaining" = some "0" →
      (headerTruthy (getHeader hs "x-ratelimit-reset") = none →
        (repoOverview rawUrl u timeoutMs (.resp 403 stx hs bodyO)).1 =
          createErrorResponse .RATE_LIMITED "GitHub API rate limit exceeded"
            [("reset_at", .nul)] ∧
        (releaseNotes rawUrl u limit timeoutMs (.resp 403 stx hs bodyR)).1 =
          createErrorResponse .RATE_LIMITED "GitHub API rate limit exceeded"
            [("reset_at", .nul)]) ∧
      (∀ v, headerTruthy (getHeader hs "x-ratelimit-reset") = some v →
        v.toList ≠ [] → (∀ c ∈ v.toList, isDig c = true) →
        digitsToNat v.toList ≤ 8640000000000 →
        ∃ iso, isValidIso8601 iso = true ∧
          iso = String.mk (isoChars (digitsToNat v.toList * 1000)) ∧
          (repoOverview rawUrl u timeoutMs (.resp 403 stx hs bodyO)).1 =
            createErrorResponse .RATE_LIMITED "GitHub API rate limit exceeded"
              [("reset_at", .s iso)] ∧
          (releaseNotes rawUrl u limit timeoutMs (.resp 403 stx hs bodyR)).1 =
            createErrorResponse .RATE_LIMITED "GitHub API rate limit exceeded"
              [("reset_at", .s iso)])) ∧
    (getHeader hs "x-ratelimit-remaining" ≠ some "0" →
      (repoOverview rawUrl u timeoutMs (.resp 403 stx hs bodyO)).1 =
        createErrorResponse .UPSTREAM_ERROR "Access forbidden" [("status", .n 403)] ∧
      (releaseNotes rawUrl u limit timeoutMs (.resp 403 stx hs bodyR)).1 =
        createErrorResponse .UPSTREAM_ERROR "Access forbidden" [("status", .n 403)]) := by
  have ho : (repoOverview rawUrl u timeoutMs (.resp 403 stx hs bodyO)).1 =
      classify403 hs := by
    simp [repoOverview, hp]
  have hr : (releaseNotes rawUrl u limit timeoutMs (.resp 403 stx hs bodyR)).1 =
      classify403 hs := by
    simp only [releaseNotes, hp]
    rw [if_neg hl]
    simp
  refine ⟨⟨ho, hr⟩, ?_, ?_⟩
  · intro hrem
    constructor
    · intro hreset
      constructor
      · rw [ho]
        simp [classify403, hrem, hreset]
      · rw [hr]
        simp [classify403, hrem, hreset]
    · intro v hreset hvne hvds hvbound
      obtain ⟨hconv, hvalid⟩ := resetIso_digits v hvne hvds hvbound
      refine ⟨String.mk (isoChars (digitsToNat v.toList * 1000)), hvalid, rfl, ?_, ?_⟩
      · rw [ho]
        simp [classify403, hrem, hreset, hconv]
      · rw [hr]
        simp [classify403, hrem, hreset, hconv]
  · intro hrem
    constructor
    · rw [ho]
      simp [classify403, hrem]
    · rw [hr]
      simp [classify403, hrem]

/-- Witness for C4: a 403 with `x-ratelimit-remaining: 0` and reset header
`1700000000` yields `RATE_LIMITED` with the valid ISO timestamp
`2023-11-14T22:13:20.000Z` from the overview tool. -/
theorem rateLimit403_policy_witness :
    (repoOverview "https://github.com/a/b"
      (some { hostname := "github.com", pathname := "/a/b" }) 30000
      (.resp 403 "Forbidden"
        [("x-ratelimit-remaining", "0"), ("x-ratelimit-reset", "1700000000")]
        sampleRepoBody)).1 =
      createErrorResponse .RATE_LIMITED "GitHub API rate limit exceeded"
        [("reset_at", .s "2023-11-14T22:13:20.000Z")] ∧
    isValidIso8601 "2023-11-14T22:13:20.000Z" = true := by
  have h := rateLimit403_policy "https://github.com/a/b"
    (some { hostname := "github.com", pathname := "/a/b" })
    { owner := "a", repo := "b" } (by decide) 30000 5 (by decide) "Forbidden"
    [("x-ratelimit-remaining", "0"), ("x-ratelimit-reset", "1700000000")]
    sampleRepoBody []
  obtain ⟨iso, hvalid, hiso, hover, _⟩ :=
    (h.2.1 (by decide)).2 "1700000000" (by decide) (by decide) (by decide) (by decide)
  have hisoval : iso = "2023-11-14T22:13:20.000Z" := by
    rw [hiso]
    decide
  rw [hisoval] at hover hvalid
  exact ⟨hover, hvalid⟩

end GitRepoBrief
